import Mathlib

/-!
# garden-linux network configuration (`fences/network/configure.go`)

A shallow embedding of `ConfigureHost`, `getBridge`, `ConfigureContainer`,
`validateContainerConfiguration` and `validIP`, together with the parts of Go's
`net` package they rely on (`IP.To4`, `IP.Equal`, `IPNet.Contains`, `IP.String`).

* An address (`net.IP`) is the list of its bytes; a nil slice is the empty list.
* A `*net.IPNet` argument is an `Option IPNet`; `none` is the nil pointer.
* The kernel is an oracle `Env` that answers every primitive call from the
  history of the calls made before it; the functions thread that history, so the
  list they return is the exact sequence of primitives they invoked.
-/

namespace GardenNetwork

/-! ## Addresses (Go `net`) -/

/-- The bytes of a `net.IP`. -/
abbrev IP := List Nat

/-- The bytes of a `net.IPMask`. -/
abbrev IPMask := List Nat

/-- A `net.IPNet`: network number and mask. -/
structure IPNet where
  IP : List Nat
  Mask : IPMask
deriving DecidableEq, Repr

def IPv4len : Nat := 4

def IPv6len : Nat := 16

def v4InV6Prefix : IP := [0, 0, 0, 0, 0, 0, 0, 0, 0, 0, 0xff, 0xff]

/-- Go `isZeros`. -/
def isZeros (p : IP) : Bool := p.all (fun b => b == 0)

/-- Go `IP.To4`: the 4-byte form of an IPv4 address, `none` (nil) when `ip` is
not an IPv4 address. -/
def To4 (ip : IP) : Option IP :=
  if ip.length = IPv4len then some ip
  else if ip.length = IPv6len ∧ isZeros (ip.take 10) = true
      ∧ ip.getD 10 0 = 0xff ∧ ip.getD 11 0 = 0xff then
    some (ip.drop 12)
  else none

/-- Go `IP.Equal`: an IPv4 address and the same address in IPv6 form are equal. -/
def IPEqual (ip x : IP) : Bool :=
  if ip.length = x.length then decide (ip = x)
  else if ip.length = IPv4len ∧ x.length = IPv6len then
    decide (x.take 12 = v4InV6Prefix) && decide (ip = x.drop 12)
  else if ip.length = IPv6len ∧ x.length = IPv4len then
    decide (ip.take 12 = v4InV6Prefix) && decide (ip.drop 12 = x)
  else false

/-- Go `networkNumberAndMask`; `([], [])` is the `nil, nil` result. -/
def networkNumberAndMask (n : IPNet) : IP × IPMask :=
  let go (ip : IP) : IP × IPMask :=
    if n.Mask.length = IPv4len then
      (if ip.length ≠ IPv4len then ([], []) else (ip, n.Mask))
    else if n.Mask.length = IPv6len then
      (if ip.length = IPv4len then (ip, n.Mask.drop 12) else (ip, n.Mask))
    else ([], [])
  match To4 n.IP with
  | some ip => go ip
  | none => if n.IP.length ≠ IPv6len then ([], []) else go n.IP

/-- The comparison loop of `IPNet.Contains`, run over the three slices in step:
`nn[i] & m[i] == ip[i] & m[i]` for every index. `Contains` enters it with `nn`
and `ip` of one length, and `networkNumberAndMask` gives `m` the length of `nn`. -/
def maskedEqual : IP → IPMask → IP → Bool
  | a :: nn, b :: m, c :: ip => (a &&& b) == (c &&& b) && maskedEqual nn m ip
  | _, _, _ => true

/-- Go `IPNet.Contains`. -/
def Contains (n : IPNet) (ip : IP) : Bool :=
  let nm := networkNumberAndMask n
  let ip := match To4 ip with
    | some x => x
    | none => ip
  if ip.length ≠ nm.1.length then false else maskedEqual nm.1 nm.2 ip

/-- Modelled from the spec: `subnets.BroadcastIP` belongs to the `subnets`
package, which is not among the sources. The spec speaks of the broadcast
address derived from the subnet (10.0.0.3 for 10.0.0.0/30): the network number
with every host bit set. -/
def BroadcastIP (subnet : IPNet) : IP :=
  List.zipWith (fun b m => b ||| ((m ^^^ 0xff) % 256)) subnet.IP subnet.Mask

/-- A Go run-time panic. -/
inductive Panic
  | nilPointerDereference
deriving DecidableEq, Repr

deriving instance DecidableEq for Except

/-- The function `validIP` of configure.go. The subnet is a pointer that the body
dereferences (`subnet.Contains`, `subnet.IP`): on a nil subnet the call panics. -/
def validIP (ip : IP) (subnet : Option IPNet) : Except Panic Bool :=
  match subnet with
  | none => .error .nilPointerDereference
  | some s => .ok (Contains s ip && !IPEqual s.IP ip && !IPEqual (BroadcastIP s) ip)

/-- The subnet 10.0.0.0/30. -/
def net10 : IPNet := ⟨[10, 0, 0, 0], [255, 255, 255, 252]⟩

/-- Every element of an address is a byte. -/
def isBytes (ip : IP) : Prop := ∀ b ∈ ip, b < 256

/-! ## Go `IP.String` -/

/-- Go `hexString`: two lower-case hex digits for each byte. -/
def hexString (b : IP) : String :=
  String.mk (b.flatMap (fun v => [Nat.digitChar (v / 16 % 16), Nat.digitChar (v % 16)]))

/-- Go `appendHex`: a 16-bit group in hex without leading zeros. -/
def appendHex (v : Nat) : String := String.mk (Nat.toDigits 16 v)

/-- The inner loop of `IP.String`: from `j`, step over the groups that are zero. -/
def zeroRunEnd (p : IP) : Nat → Nat → Nat
  | 0, j => j
  | fuel + 1, j =>
    if j < IPv6len ∧ p.getD j 0 = 0 ∧ p.getD (j + 1) 0 = 0 then zeroRunEnd p fuel (j + 2) else j

/-- The first loop of `IP.String`: the longest run of zero groups `[e0, e1)`,
the leftmost one among equals; `(-1, -1)` at the start. -/
def longestZeroRun (p : IP) : Nat → Nat → Int × Int → Int × Int
  | 0, _, e => e
  | fuel + 1, i, e =>
    if i < IPv6len then
      let j := zeroRunEnd p 8 i
      if j > i ∧ (j : Int) - (i : Int) > e.2 - e.1 then longestZeroRun p fuel (j + 2) (i, j)
      else longestZeroRun p fuel (i + 2) e
    else e

/-- The printing loop of `IP.String`, with `::` in place of the run `[e0, e1)`. -/
def printGroups (p : IP) (e0 e1 : Int) : Nat → Nat → String → String
  | 0, _, b => b
  | fuel + 1, i, b =>
    if i < IPv6len then
      if (i : Int) = e0 then
        if e1.toNat ≥ IPv6len then b ++ "::"
        else printGroups p e0 e1 fuel (e1.toNat + 2)
          (b ++ "::" ++ appendHex (p.getD e1.toNat 0 * 256 ||| p.getD (e1.toNat + 1) 0))
      else
        printGroups p e0 e1 fuel (i + 2)
          ((if i > 0 then b ++ ":" else b) ++ appendHex (p.getD i 0 * 256 ||| p.getD (i + 1) 0))
    else b

/-- Go `IP.String`: dotted decimal for an IPv4 address, RFC 5952 text for an
IPv6 address, `<nil>` for the empty address and `?` followed by the hex bytes
for any other length (releases before Go 1.11 print `?` alone there). -/
def IPString (ip : IP) : String :=
  if ip.length = 0 then "<nil>"
  else match To4 ip with
    | some p4 =>
      toString (p4.getD 0 0) ++ "." ++ toString (p4.getD 1 0) ++ "."
        ++ toString (p4.getD 2 0) ++ "." ++ toString (p4.getD 3 0)
    | none =>
      if ip.length ≠ IPv6len then "?" ++ hexString ip
      else
        let e := longestZeroRun ip 8 0 (-1, -1)
        let e := if e.2 - e.1 ≤ 2 then ((-1 : Int), (-1 : Int)) else e
        printGroups ip e.1 e.2 8 0 ""

/-! ## The kernel -/

/-- A `net.Interface`, the handle the lookups return. -/
structure Interface where
  Index : Int
  MTU : Int
  Name : String
  HardwareAddr : List Nat
  Flags : Nat
deriving DecidableEq, Repr

/-- One invocation of a kernel primitive, with its arguments. `InterfaceByName`
is the substitutable package variable; `netInterfaceByName` is
`net.InterfaceByName` called directly, as `getBridge` does. -/
inductive Call
  | NetworkCreateVethPair (name1 name2 : String) (txQueueLen : Int)
  | InterfaceByName (name : String)
  | NetworkSetMTU (iface : Interface) (mtu : Int)
  | NetworkSetNsPid (iface : Interface) (nspid : Int)
  | netInterfaceByName (name : String)
  | NetworkLinkAdd (name linkType : String)
  | AddToBridge (iface master : Interface)
  | NetworkLinkAddIp (iface : Interface) (ip : IP) (ipNet : Option IPNet)
  | NetworkLinkUp (iface : Interface)
  | AddDefaultGw (ip device : String)
deriving DecidableEq, Repr

/-- The environment the functions run in. A primitive is answered from the
calls made before it (oldest first): `fails h c` tells whether call `c`, made
after the history `h`, returns a non-nil error, and `iface h c` is the interface
a lookup `c` returns when it does not fail (with a nil error the interface is
non-nil, as `net.InterfaceByName` guarantees). -/
structure Env where
  fails : List Call → Call → Bool
  iface : List Call → Call → Interface

/-- Invoke a primitive that only reports an error: the flag is `err != nil`. -/
def Env.invoke (env : Env) (h : List Call) (c : Call) : Bool × List Call :=
  (env.fails h c, h ++ [c])

/-- Invoke an interface lookup: `none` when it returns an error. -/
def Env.resolve (env : Env) (h : List Call) (c : Call) : Option Interface × List Call :=
  (if env.fails h c then none else some (env.iface h c), h ++ [c])

/-! ## configure.go -/

/-- The sentinel errors of configure.go; `errors.New` makes each one a value of
its own. -/
inductive Err
  | ErrBadContainerInterface
  | ErrBadHostInterface
  | ErrBadLoopbackInterface
  | ErrConflictingIPs
  | ErrContainerInterfaceMissing
  | ErrFailedToAddGateway
  | ErrFailedToAddIp
  | ErrFailedToAddLoopbackIp
  | ErrFailedToAddSlave
  | ErrFailedToCreateBridge
  | ErrFailedToCreateVethPair
  | ErrFailedToFindBridge
  | ErrFailedToLinkUp
  | ErrFailedToLinkUpLoopback
  | ErrFailedToSetContainerNs
  | ErrFailedToSetHostNs
  | ErrFailedToSetMtu
  | ErrInvalidContainerIP
  | ErrInvalidGatewayIP
  | ErrInvalidMtu
  | ErrSubnetNil
deriving DecidableEq, Repr

open Err

/-- The function `getBridge`: the interface (`none` is nil) and the `created` flag, with the
history after its calls. -/
def getBridge (env : Env) (ifcName : String) (h : List Call) :
    (Option Interface × Bool) × List Call :=
  match env.resolve h (.netInterfaceByName ifcName) with
  | (some brIfc, h) => ((some brIfc, false), h)
  | (none, h) =>
    match env.invoke h (.NetworkLinkAdd ifcName "bridge") with
    | (true, h) => ((none, false), h)
    | (false, h) =>
      match env.resolve h (.netInterfaceByName ifcName) with
      | (none, h) => ((none, true), h)
      | (some brIfc, h) => ((some brIfc, true), h)

/-- The function `ConfigureHost`: the error returned (`none` is nil) and the history after
its calls. -/
def ConfigureHost (env : Env) (hostInterface containerInterface : String) (gatewayIP : IP)
    (subnetShareable : Bool) (bridgeInterface : String) (subnet : Option IPNet)
    (containerPid mtu : Int) (h : List Call) : Option Err × List Call :=
  match env.invoke h (.NetworkCreateVethPair hostInterface containerInterface 1) with
  | (true, h) => (some ErrFailedToCreateVethPair, h)
  | (false, h) =>
  match env.resolve h (.InterfaceByName hostInterface) with
  | (none, h) => (some ErrBadHostInterface, h)
  | (some hostIfc, h) =>
  match env.invoke h (.NetworkSetMTU hostIfc mtu) with
  | (true, h) => (some ErrFailedToSetMtu, h)
  | (false, h) =>
  match env.invoke h (.NetworkSetNsPid hostIfc 1) with
  | (true, h) => (some ErrFailedToSetHostNs, h)
  | (false, h) =>
  match env.resolve h (.InterfaceByName containerInterface) with
  | (none, h) => (some ErrBadContainerInterface, h)
  | (some containerIfc, h) =>
  match env.invoke h (.NetworkSetNsPid containerIfc containerPid) with
  | (true, h) => (some ErrFailedToSetContainerNs, h)
  | (false, h) =>
  match getBridge env bridgeInterface h with
  | ((none, _), h) => (some ErrFailedToCreateBridge, h)
  | ((some bridgeIfc, created), h) =>
  if !created && !subnetShareable then (some ErrFailedToCreateBridge, h) else
  match env.invoke h (.AddToBridge hostIfc bridgeIfc) with
  | (true, h) => (some ErrFailedToAddSlave, h)
  | (false, h) =>
  let afterBridge : Option Err × List Call :=
    if created then
      match env.invoke h (.NetworkLinkAddIp bridgeIfc gatewayIP subnet) with
      | (true, h) => (some ErrFailedToAddIp, h)
      | (false, h) =>
        match env.invoke h (.NetworkLinkUp bridgeIfc) with
        | (true, h) => (some ErrFailedToLinkUp, h)
        | (false, h) => (none, h)
    else (none, h)
  match afterBridge with
  | (some e, h) => (some e, h)
  | (none, h) =>
  match env.invoke h (.NetworkLinkUp hostIfc) with
  | (true, h) => (some ErrFailedToLinkUp, h)
  | (false, h) => (none, h)

/-- The function `validateContainerConfiguration`: the error returned (`none` is nil); a
panic is an `Except.error`. -/
def validateContainerConfiguration (containerInterface : String) (containerIP gatewayIP : IP)
    (subnet : Option IPNet) (mtu : Int) : Except Panic (Option Err) :=
  if containerInterface = "" then .ok (some ErrContainerInterfaceMissing)
  else if subnet = none then .ok (some ErrSubnetNil)
  else
    match validIP containerIP subnet with
    | .error p => .error p
    | .ok false => .ok (some ErrInvalidContainerIP)
    | .ok true =>
      match validIP gatewayIP subnet with
      | .error p => .error p
      | .ok false => .ok (some ErrInvalidGatewayIP)
      | .ok true =>
        if IPEqual containerIP gatewayIP then .ok (some ErrConflictingIPs)
        else if mtu ≤ 0 then .ok (some ErrInvalidMtu)
        else .ok none

/-- The value of `net.ParseIP("127.0.0.1")`: the 16-byte form of 127.0.0.1. -/
def loopbackIP : IP := v4InV6Prefix ++ [127, 0, 0, 1]

/-- The network `net.ParseCIDR("127.0.0.1/8")` returns: 127.0.0.0 with mask
255.0.0.0. -/
def liIpNet : IPNet := ⟨[127, 0, 0, 0], [255, 0, 0, 0]⟩

/-- The function `ConfigureContainer`: the error returned (`none` is nil) and the history
after its calls. -/
def ConfigureContainer (env : Env) (containerInterface : String) (containerIP gatewayIP : IP)
    (subnet : Option IPNet) (mtu : Int) (h : List Call) :
    Except Panic (Option Err × List Call) :=
  match validateContainerConfiguration containerInterface containerIP gatewayIP subnet mtu with
  | .error p => .error p
  | .ok (some err) => .ok (some err, h)
  | .ok none =>
  match env.resolve h (.InterfaceByName "lo") with
  | (none, h) => .ok (some ErrBadLoopbackInterface, h)
  | (some loIfc, h) =>
  match env.invoke h (.NetworkLinkAddIp loIfc loopbackIP (some liIpNet)) with
  | (true, h) => .ok (some ErrFailedToAddLoopbackIp, h)
  | (false, h) =>
  match env.invoke h (.NetworkLinkUp loIfc) with
  | (true, h) => .ok (some ErrFailedToLinkUpLoopback, h)
  | (false, h) =>
  match env.resolve h (.InterfaceByName containerInterface) with
  | (none, h) => .ok (some ErrBadContainerInterface, h)
  | (some ifc, h) =>
  match env.invoke h (.NetworkSetMTU ifc mtu) with
  | (true, h) => .ok (some ErrFailedToSetMtu, h)
  | (false, h) =>
  match env.invoke h (.NetworkLinkAddIp ifc containerIP subnet) with
  | (true, h) => .ok (some ErrFailedToAddIp, h)
  | (false, h) =>
  match env.invoke h (.AddDefaultGw (IPString gatewayIP) containerInterface) with
  | (true, h) => .ok (some ErrFailedToAddGateway, h)
  | (false, h) =>
  match env.invoke h (.NetworkLinkUp ifc) with
  | (true, h) => .ok (some ErrFailedToLinkUp, h)
  | (false, h) => .ok (none, h)

/-! ## Histories `ConfigureHost` and `ConfigureContainer` pass through -/

/-- The host-end interface `ConfigureHost` works with: what the lookup that
follows the veth creation returns. -/
def hostIfcOf (env : Env) (hostInterface containerInterface : String) (h : List Call) :
    Interface :=
  env.iface (h ++ [.NetworkCreateVethPair hostInterface containerInterface 1])
    (.InterfaceByName hostInterface)

/-- The history once the host end is created, resolved, given its MTU and moved
into namespace 1. -/
def afterHostEnd (env : Env) (hostInterface containerInterface : String) (mtu : Int)
    (h : List Call) : List Call :=
  h ++ [.NetworkCreateVethPair hostInterface containerInterface 1,
    .InterfaceByName hostInterface,
    .NetworkSetMTU (hostIfcOf env hostInterface containerInterface h) mtu,
    .NetworkSetNsPid (hostIfcOf env hostInterface containerInterface h) 1]

/-- The container-end interface `ConfigureHost` works with. -/
def containerIfcOf (env : Env) (hostInterface containerInterface : String) (mtu : Int)
    (h : List Call) : Interface :=
  env.iface (afterHostEnd env hostInterface containerInterface mtu h)
    (.InterfaceByName containerInterface)

/-- The history when `ConfigureHost` turns to the bridge: the six steps before
it have been made. -/
def beforeBridge (env : Env) (hostInterface containerInterface : String)
    (containerPid mtu : Int) (h : List Call) : List Call :=
  afterHostEnd env hostInterface containerInterface mtu h
    ++ [.InterfaceByName containerInterface,
      .NetworkSetNsPid (containerIfcOf env hostInterface containerInterface mtu h) containerPid]

/-- The six steps of `ConfigureHost` that come before the bridge all succeed:
veth creation, host lookup, MTU, host namespace, container lookup, container
namespace. -/
def preBridgeSucceeds (env : Env) (hostInterface containerInterface : String)
    (containerPid mtu : Int) (h : List Call) : Bool :=
  !env.fails h (.NetworkCreateVethPair hostInterface containerInterface 1)
  && !env.fails (h ++ [.NetworkCreateVethPair hostInterface containerInterface 1])
      (.InterfaceByName hostInterface)
  && !env.fails (h ++ [.NetworkCreateVethPair hostInterface containerInterface 1,
        .InterfaceByName hostInterface])
      (.NetworkSetMTU (hostIfcOf env hostInterface containerInterface h) mtu)
  && !env.fails (h ++ [.NetworkCreateVethPair hostInterface containerInterface 1,
        .InterfaceByName hostInterface,
        .NetworkSetMTU (hostIfcOf env hostInterface containerInterface h) mtu])
      (.NetworkSetNsPid (hostIfcOf env hostInterface containerInterface h) 1)
  && !env.fails (afterHostEnd env hostInterface containerInterface mtu h)
      (.InterfaceByName containerInterface)
  && !env.fails (afterHostEnd env hostInterface containerInterface mtu h
        ++ [.InterfaceByName containerInterface])
      (.NetworkSetNsPid (containerIfcOf env hostInterface containerInterface mtu h) containerPid)

/-- The calls `h` was extended by to reach `t`. -/
def callsSince (h t : List Call) : List Call := t.drop h.length

/-- The loopback interface `ConfigureContainer` works with. -/
def loIfcOf (env : Env) (h : List Call) : Interface :=
  env.iface h (.InterfaceByName "lo")

/-- The history once loopback is resolved, addressed and up. -/
def afterLoopback (env : Env) (h : List Call) : List Call :=
  h ++ [.InterfaceByName "lo",
    .NetworkLinkAddIp (loIfcOf env h) loopbackIP (some liIpNet),
    .NetworkLinkUp (loIfcOf env h)]

/-- The container interface `ConfigureContainer` works with. -/
def ifcOf (env : Env) (containerInterface : String) (h : List Call) : Interface :=
  env.iface (afterLoopback env h) (.InterfaceByName containerInterface)

/-- The primitive a call invokes, without its arguments. -/
inductive Op
  | NetworkCreateVethPair
  | InterfaceByName
  | NetworkSetMTU
  | NetworkSetNsPid
  | netInterfaceByName
  | NetworkLinkAdd
  | AddToBridge
  | NetworkLinkAddIp
  | NetworkLinkUp
  | AddDefaultGw
deriving DecidableEq, Repr

/-- The primitive of a call. -/
def Call.op : Call → Op
  | .NetworkCreateVethPair _ _ _ => .NetworkCreateVethPair
  | .InterfaceByName _ => .InterfaceByName
  | .NetworkSetMTU _ _ => .NetworkSetMTU
  | .NetworkSetNsPid _ _ => .NetworkSetNsPid
  | .netInterfaceByName _ => .netInterfaceByName
  | .NetworkLinkAdd _ _ => .NetworkLinkAdd
  | .AddToBridge _ _ => .AddToBridge
  | .NetworkLinkAddIp _ _ _ => .NetworkLinkAddIp
  | .NetworkLinkUp _ => .NetworkLinkUp
  | .AddDefaultGw _ _ => .AddDefaultGw

/-- The steps of a run of `ConfigureHost`: the primitives of its calls, where the
calls `getBridge` makes count as one step, recorded as its lookup: a creation
that follows a direct lookup, and the lookup after that creation, add no step. -/
def hostSteps : List Call → List Op
  | [] => []
  | .netInterfaceByName _ :: .NetworkLinkAdd _ _ :: .netInterfaceByName _ :: rest =>
    .netInterfaceByName :: hostSteps rest
  | .netInterfaceByName _ :: .NetworkLinkAdd _ _ :: rest => .netInterfaceByName :: hostSteps rest
  | c :: rest => c.op :: hostSteps rest

/-! ## Tables used in the statements -/

/-- The errors the validation gate can return. -/
def validationErrors : List Err :=
  [ErrContainerInterfaceMissing, ErrSubnetNil, ErrInvalidContainerIP, ErrInvalidGatewayIP,
    ErrConflictingIPs, ErrInvalidMtu]

/-- The operations `ConfigureContainer` has performed when it returns a given
error. -/
def containerOpsAt : Err → List Op
  | ErrBadLoopbackInterface => [.InterfaceByName]
  | ErrFailedToAddLoopbackIp => [.InterfaceByName, .NetworkLinkAddIp]
  | ErrFailedToLinkUpLoopback => [.InterfaceByName, .NetworkLinkAddIp, .NetworkLinkUp]
  | ErrBadContainerInterface =>
    [.InterfaceByName, .NetworkLinkAddIp, .NetworkLinkUp, .InterfaceByName]
  | ErrFailedToSetMtu =>
    [.InterfaceByName, .NetworkLinkAddIp, .NetworkLinkUp, .InterfaceByName, .NetworkSetMTU]
  | ErrFailedToAddIp =>
    [.InterfaceByName, .NetworkLinkAddIp, .NetworkLinkUp, .InterfaceByName, .NetworkSetMTU,
      .NetworkLinkAddIp]
  | ErrFailedToAddGateway =>
    [.InterfaceByName, .NetworkLinkAddIp, .NetworkLinkUp, .InterfaceByName, .NetworkSetMTU,
      .NetworkLinkAddIp, .AddDefaultGw]
  | ErrFailedToLinkUp =>
    [.InterfaceByName, .NetworkLinkAddIp, .NetworkLinkUp, .InterfaceByName, .NetworkSetMTU,
      .NetworkLinkAddIp, .AddDefaultGw, .NetworkLinkUp]
  | _ => []

/-- The steps `ConfigureHost` has performed when it returns a given error other
than `ErrFailedToLinkUp`. -/
def hostStepsAt : Err → List Op
  | ErrFailedToCreateVethPair => [.NetworkCreateVethPair]
  | ErrBadHostInterface => [.NetworkCreateVethPair, .InterfaceByName]
  | ErrFailedToSetMtu => [.NetworkCreateVethPair, .InterfaceByName, .NetworkSetMTU]
  | ErrFailedToSetHostNs =>
    [.NetworkCreateVethPair, .InterfaceByName, .NetworkSetMTU, .NetworkSetNsPid]
  | ErrBadContainerInterface =>
    [.NetworkCreateVethPair, .InterfaceByName, .NetworkSetMTU, .NetworkSetNsPid,
      .InterfaceByName]
  | ErrFailedToSetContainerNs =>
    [.NetworkCreateVethPair, .InterfaceByName, .NetworkSetMTU, .NetworkSetNsPid,
      .InterfaceByName, .NetworkSetNsPid]
  | ErrFailedToCreateBridge =>
    [.NetworkCreateVethPair, .InterfaceByName, .NetworkSetMTU, .NetworkSetNsPid,
      .InterfaceByName, .NetworkSetNsPid, .netInterfaceByName]
  | ErrFailedToAddSlave =>
    [.NetworkCreateVethPair, .InterfaceByName, .NetworkSetMTU, .NetworkSetNsPid,
      .InterfaceByName, .NetworkSetNsPid, .netInterfaceByName, .AddToBridge]
  | ErrFailedToAddIp =>
    [.NetworkCreateVethPair, .InterfaceByName, .NetworkSetMTU, .NetworkSetNsPid,
      .InterfaceByName, .NetworkSetNsPid, .netInterfaceByName, .AddToBridge,
      .NetworkLinkAddIp]
  | _ => []

/-- The check of the validation gate that each of its errors reports. -/
def failedCheck (e : Err) (containerInterface : String) (containerIP gatewayIP : IP)
    (subnet : Option IPNet) (mtu : Int) : Prop :=
  match e with
  | ErrContainerInterfaceMissing => containerInterface = ""
  | ErrSubnetNil => subnet = none
  | ErrInvalidContainerIP => validIP containerIP subnet = .ok false
  | ErrInvalidGatewayIP => validIP gatewayIP subnet = .ok false
  | ErrConflictingIPs => IPEqual containerIP gatewayIP = true
  | ErrInvalidMtu => mtu ≤ 0
  | _ => False

/-! ## Fail-fast plans -/

/-- The calls of a plan; a plan pairs each call with the sentinel error its step
reports when the call fails. -/
def planCalls (plan : List (Call × Err)) : List Call := plan.map Prod.fst

/-- Every call of the list succeeds when the calls are made one after the other,
starting from the history `h`. -/
def allSucceed (env : Env) : List Call → List Call → Bool
  | _, [] => true
  | h, c :: cs => !env.fails h c && allSucceed env (h ++ [c]) cs

/-- Fail-fast execution of a plan, as the propagation policy words it: the calls
are made in order, the first one that fails ends the run at once with the
sentinel of its step, and the result is nil when none fails. -/
def failFast (env : Env) : List Call → List (Call × Err) → Option Err × List Call
  | h, [] => (none, h)
  | h, (c, e) :: rest =>
    if env.fails h c then (some e, h ++ [c]) else failFast env (h ++ [c]) rest

/-- The steps of `ConfigureContainer` that follow the validation gate, each with
the error its failure returns. -/
def containerPlan (env : Env) (containerInterface : String) (containerIP gatewayIP : IP)
    (subnet : Option IPNet) (mtu : Int) (h : List Call) : List (Call × Err) :=
  [(.InterfaceByName "lo", ErrBadLoopbackInterface),
    (.NetworkLinkAddIp (loIfcOf env h) loopbackIP (some liIpNet), ErrFailedToAddLoopbackIp),
    (.NetworkLinkUp (loIfcOf env h), ErrFailedToLinkUpLoopback),
    (.InterfaceByName containerInterface, ErrBadContainerInterface),
    (.NetworkSetMTU (ifcOf env containerInterface h) mtu, ErrFailedToSetMtu),
    (.NetworkLinkAddIp (ifcOf env containerInterface h) containerIP subnet, ErrFailedToAddIp),
    (.AddDefaultGw (IPString gatewayIP) containerInterface, ErrFailedToAddGateway),
    (.NetworkLinkUp (ifcOf env containerInterface h), ErrFailedToLinkUp)]

/-- The six steps of `ConfigureHost` that come before the bridge, each with the
error its failure returns. -/
def hostPlanBeforeBridge (env : Env) (hostInterface containerInterface : String)
    (containerPid mtu : Int) (h : List Call) : List (Call × Err) :=
  [(.NetworkCreateVethPair hostInterface containerInterface 1, ErrFailedToCreateVethPair),
    (.InterfaceByName hostInterface, ErrBadHostInterface),
    (.NetworkSetMTU (hostIfcOf env hostInterface containerInterface h) mtu, ErrFailedToSetMtu),
    (.NetworkSetNsPid (hostIfcOf env hostInterface containerInterface h) 1,
      ErrFailedToSetHostNs),
    (.InterfaceByName containerInterface, ErrBadContainerInterface),
    (.NetworkSetNsPid (containerIfcOf env hostInterface containerInterface mtu h) containerPid,
      ErrFailedToSetContainerNs)]

/-- The steps of `ConfigureHost` that follow the bridge step, each with the error
its failure returns: attach the host end, then for a bridge created by this call
its address and link-up, then the host end's link-up. -/
def hostPlanAfterBridge (hostIfc bridgeIfc : Interface) (created : Bool) (gatewayIP : IP)
    (subnet : Option IPNet) : List (Call × Err) :=
  [(.AddToBridge hostIfc bridgeIfc, ErrFailedToAddSlave)]
    ++ (if created then
          [(.NetworkLinkAddIp bridgeIfc gatewayIP subnet, ErrFailedToAddIp),
            (.NetworkLinkUp bridgeIfc, ErrFailedToLinkUp)]
        else [])
    ++ [(.NetworkLinkUp hostIfc, ErrFailedToLinkUp)]

/-! ## Test environments -/

/-- The interface a test environment hands back for a lookup: it carries the
name looked up. -/
def namedIface : Call → Interface
  | .InterfaceByName n => ⟨1, 1500, n, [], 0⟩
  | .netInterfaceByName n => ⟨2, 1500, n, [], 0⟩
  | _ => ⟨0, 0, "", [], 0⟩

/-- An environment in which every primitive succeeds. -/
def envAllOk : Env := ⟨fun _ _ => false, fun _ c => namedIface c⟩

/-- A kernel in which a bridge exists once its creation has been requested:
the direct lookup of a name fails until a `NetworkLinkAdd` of that name is in
the history, and every other primitive succeeds. -/
def envFreshBridge : Env :=
  ⟨fun h c => match c with
    | .netInterfaceByName n => decide (Call.NetworkLinkAdd n "bridge" ∉ h)
    | _ => false,
   fun _ c => namedIface c⟩

/-- The race on the bridge: the direct lookup finds nothing, another caller
then creates the device, so that the creation attempted here fails and a lookup
made after it would succeed. -/
def envBridgeRace : Env :=
  ⟨fun h c => match c with
    | .netInterfaceByName n => decide (Call.NetworkLinkAdd n "bridge" ∉ h)
    | .NetworkLinkAdd _ _ => true
    | _ => false,
   fun _ c => namedIface c⟩

/-- The kernel of `envFreshBridge` in which, besides, the calls that `bad`
selects fail. -/
def envFailing (bad : Call → Bool) : Env :=
  ⟨fun h c => match c with
    | .netInterfaceByName n => decide (Call.NetworkLinkAdd n "bridge" ∉ h)
    | c => bad c,
   fun _ c => namedIface c⟩

/-- A kernel in which bringing up the interface called `name` fails. -/
def envLinkUpFails (name : String) : Env :=
  envFailing (fun c => match c with
    | .NetworkLinkUp i => i.Name == name
    | _ => false)

/-- A kernel in which assigning an address to the interface called `name`
fails. -/
def envAddIpFails (name : String) : Env :=
  envFailing (fun c => match c with
    | .NetworkLinkAddIp i _ _ => i.Name == name
    | _ => false)

/-- A kernel in which attaching an interface to a bridge fails. -/
def envAttachFails : Env :=
  envFailing (fun c => match c with
    | .AddToBridge _ _ => true
    | _ => false)

/-- A kernel in which creating a veth pair fails. -/
def envVethFails : Env :=
  envFailing (fun c => match c with
    | .NetworkCreateVethPair _ _ _ => true
    | _ => false)

/-- A kernel in which adding a default route fails. -/
def envGatewayFails : Env :=
  envFailing (fun c => match c with
    | .AddDefaultGw _ _ => true
    | _ => false)

/-! ## Address validation -/

theorem and_255_of_lt (a : Nat) (h : a < 256) : a &&& 255 = a := by
  have hmod := Nat.and_pow_two_sub_one_eq_mod a 8
  simpa [Nat.mod_eq_of_lt h] using hmod

set_option maxRecDepth 4000 in
theorem lt_four_of_and_252 : ∀ d < 256, d &&& 252 = 0 → d < 4 := by decide

/-- Among the 4-byte addresses, 10.0.0.0/30 accepts 10.0.0.1 and 10.0.0.2 only. -/
theorem validIP_net10_four (a b c d : Nat) (h : isBytes [a, b, c, d]) :
    validIP [a, b, c, d] (some net10) = .ok true
      ↔ (a = 10 ∧ b = 0 ∧ c = 0 ∧ (d = 1 ∨ d = 2)) := by
  have ha : a < 256 := h a (by simp)
  have hb : b < 256 := h b (by simp)
  have hc : c < 256 := h c (by simp)
  have hd : d < 256 := h d (by simp)
  constructor
  · intro hv
    simp [validIP, Contains, networkNumberAndMask, To4, net10, IPv4len, IPv6len, maskedEqual,
      IPEqual, BroadcastIP, and_255_of_lt _ ha, and_255_of_lt _ hb, and_255_of_lt _ hc] at hv
    obtain ⟨⟨⟨h1, h2, h3, h4⟩, h5⟩, h6⟩ := hv
    have h7 := lt_four_of_and_252 d hd h4.symm
    have h8 : (10 : Nat) &&& 255 = 10 := by decide
    rw [h8] at h1
    omega
  · rintro ⟨rfl, rfl, rfl, rfl | rfl⟩ <;> decide

/-- In 10.0.0.0/30 the valid addresses are 10.0.0.1 and 10.0.0.2, in 4-byte or
in 16-byte form. -/
theorem validIP_net10 (ip : IP) (h : isBytes ip) :
    validIP ip (some net10) = .ok true ↔
      (ip = [10, 0, 0, 1] ∨ ip = [10, 0, 0, 2]
        ∨ ip = v4InV6Prefix ++ [10, 0, 0, 1] ∨ ip = v4InV6Prefix ++ [10, 0, 0, 2]) := by
  by_cases h4 : ip.length = 4
  · match ip, h4 with
    | [a, b, c, d], _ =>
      rw [validIP_net10_four a b c d h]
      simp [v4InV6Prefix]
      tauto
  · by_cases h16 : ip.length = 16
    · match ip, h16 with
      | [a1, a2, a3, a4, a5, a6, a7, a8, a9, a10, a11, a12, a, b, c, d], _ =>
        have hb4 : isBytes [a, b, c, d] := fun x hx => h x (by simp at hx ⊢; tauto)
        have hv := validIP_net10_four a b c d hb4
        by_cases hp : [a1, a2, a3, a4, a5, a6, a7, a8, a9, a10, a11, a12] = v4InV6Prefix
        · simp only [v4InV6Prefix, List.cons.injEq, and_true] at hp
          obtain ⟨rfl, rfl, rfl, rfl, rfl, rfl, rfl, rfl, rfl, rfl, rfl, rfl⟩ := hp
          have e : validIP [0, 0, 0, 0, 0, 0, 0, 0, 0, 0, 255, 255, a, b, c, d] (some net10)
              = validIP [a, b, c, d] (some net10) := by
            simp [validIP, Contains, networkNumberAndMask, To4, net10, IPv4len, IPv6len,
              maskedEqual, IPEqual, BroadcastIP, isZeros, v4InV6Prefix]
          rw [e, hv]
          simp [v4InV6Prefix]
          tauto
        · have hq : ¬((a1 = 0 ∧ a2 = 0 ∧ a3 = 0 ∧ a4 = 0 ∧ a5 = 0 ∧ a6 = 0 ∧ a7 = 0 ∧ a8 = 0
              ∧ a9 = 0 ∧ a10 = 0) ∧ a11 = 255 ∧ a12 = 255) := by
            rintro ⟨⟨h1, h2, h3, h4, h5, h6, h7, h8, h9, h10⟩, h11, h12⟩
            exact hp (by rw [h1, h2, h3, h4, h5, h6, h7, h8, h9, h10, h11, h12]; rfl)
          have e : validIP [a1, a2, a3, a4, a5, a6, a7, a8, a9, a10, a11, a12, a, b, c, d]
              (some net10) = .ok false := by
            simp [validIP, Contains, networkNumberAndMask, To4, net10, IPv4len, IPv6len,
              isZeros, hq]
          rw [e]
          constructor
          · intro hc; cases hc
          · rintro (hc | hc | hc | hc)
            · simp at hc
            · simp at hc
            · exact absurd (congrArg (List.take 12) hc) hp
            · exact absurd (congrArg (List.take 12) hc) hp
    · have e : validIP ip (some net10) = .ok false := by
        simp [validIP, Contains, networkNumberAndMask, To4, net10, IPv4len, IPv6len, h4, h16]
      rw [e]
      simp
      refine ⟨?_, ?_, ?_, ?_⟩ <;> rintro rfl <;> simp [v4InV6Prefix] at h4 h16

/-- C1: `validIP` is false on the subnet's network address (the `IP` field of
the `IPNet`) and on its broadcast address, true on every other address the
subnet contains, and false on every address outside the subnet; in 10.0.0.0/30
exactly 10.0.0.1 and 10.0.0.2 are valid. -/
theorem validIP_host_address (ip : IP) (subnet : IPNet) :
    ((IPEqual subnet.IP ip = true ∨ IPEqual (BroadcastIP subnet) ip = true) →
        validIP ip (some subnet) = .ok false)
    ∧ (Contains subnet ip = true → IPEqual subnet.IP ip = false →
        IPEqual (BroadcastIP subnet) ip = false → validIP ip (some subnet) = .ok true)
    ∧ (Contains subnet ip = false → validIP ip (some subnet) = .ok false)
    ∧ (isBytes ip → (validIP ip (some net10) = .ok true ↔
        (ip = [10, 0, 0, 1] ∨ ip = [10, 0, 0, 2]
          ∨ ip = v4InV6Prefix ++ [10, 0, 0, 1] ∨ ip = v4InV6Prefix ++ [10, 0, 0, 2]))) := by
  refine ⟨?_, ?_, ?_, validIP_net10 ip⟩
  · rintro (h | h) <;> simp [validIP, h]
  · intro h1 h2 h3
    simp [validIP, h1, h2, h3]
  · intro h
    simp [validIP, h]

/-- C1 at 10.0.0.0/30: the network address 10.0.0.0 and the broadcast address
10.0.0.3 are refused, 10.0.0.2 is accepted, 10.0.0.4 lies outside. -/
theorem validIP_host_address_witness :
    validIP [10, 0, 0, 0] (some net10) = .ok false
    ∧ validIP [10, 0, 0, 3] (some net10) = .ok false
    ∧ validIP [10, 0, 0, 2] (some net10) = .ok true
    ∧ validIP [10, 0, 0, 4] (some net10) = .ok false
    ∧ validIP (v4InV6Prefix ++ [10, 0, 0, 1]) (some net10) = .ok true :=
  ⟨(validIP_host_address [10, 0, 0, 0] net10).1 (Or.inl (by decide)),
   (validIP_host_address [10, 0, 0, 3] net10).1 (Or.inr (by decide)),
   (validIP_host_address [10, 0, 0, 2] net10).2.1 (by decide) (by decide) (by decide),
   (validIP_host_address [10, 0, 0, 4] net10).2.2.1 (by decide),
   ((validIP_host_address (v4InV6Prefix ++ [10, 0, 0, 1]) net10).2.2.2
      (by intro b hb; revert b; decide)).2 (Or.inr (Or.inr (Or.inl rfl)))⟩

/-! ## The validation gate of `ConfigureContainer` -/

/-- When the gate returns an error, `ConfigureContainer` returns it and the
history is untouched. -/
theorem ConfigureContainer_of_gate_error (env : Env) (containerInterface : String)
    (containerIP gatewayIP : IP) (subnet : Option IPNet) (mtu : Int) (h : List Call) (e : Err)
    (hv : validateContainerConfiguration containerInterface containerIP gatewayIP subnet mtu
      = .ok (some e)) :
    ConfigureContainer env containerInterface containerIP gatewayIP subnet mtu h
      = .ok (some e, h) := by
  simp [ConfigureContainer, hv]

/-- Arguments that fail one of the six checks make `ConfigureContainer` return a
validation error with the history untouched. -/
theorem gate_failure_returns_validation_error (env : Env) (containerInterface : String)
    (containerIP gatewayIP : IP) (subnet : Option IPNet) (mtu : Int) (h : List Call)
    (hbad : containerInterface = "" ∨ subnet = none
      ∨ validIP containerIP subnet = .ok false ∨ validIP gatewayIP subnet = .ok false
      ∨ IPEqual containerIP gatewayIP = true ∨ mtu ≤ 0) :
    ∃ e, e ∈ validationErrors
      ∧ ConfigureContainer env containerInterface containerIP gatewayIP subnet mtu h
        = .ok (some e, h) := by
  have key : ∃ e, e ∈ validationErrors
      ∧ validateContainerConfiguration containerInterface containerIP gatewayIP subnet mtu
        = .ok (some e) := by
    unfold validateContainerConfiguration
    by_cases h1 : containerInterface = ""
    · exact ⟨ErrContainerInterfaceMissing, by simp [validationErrors], by simp [h1]⟩
    · cases subnet with
      | none => exact ⟨ErrSubnetNil, by simp [validationErrors], by simp [h1]⟩
      | some s =>
        cases hc : Contains s containerIP && !IPEqual s.IP containerIP
            && !IPEqual (BroadcastIP s) containerIP
        · exact ⟨ErrInvalidContainerIP, by simp [validationErrors], by simp [h1, validIP, hc]⟩
        · cases hg : Contains s gatewayIP && !IPEqual s.IP gatewayIP
              && !IPEqual (BroadcastIP s) gatewayIP
          · exact ⟨ErrInvalidGatewayIP, by simp [validationErrors],
              by simp [h1, validIP, hc, hg]⟩
          · cases he : IPEqual containerIP gatewayIP
            · by_cases hm : mtu ≤ 0
              · exact ⟨ErrInvalidMtu, by simp [validationErrors],
                  by simp [h1, validIP, hc, hg, he, hm]⟩
              · simp [h1, validIP, hc, hg, he, hm] at hbad
            · exact ⟨ErrConflictingIPs, by simp [validationErrors],
                by simp [h1, validIP, hc, hg, he]⟩
  obtain ⟨e, hmem, hv⟩ := key
  exact ⟨e, hmem, ConfigureContainer_of_gate_error env _ _ _ _ _ h e hv⟩

/-- C2: when an argument fails the validation gate (empty interface name, nil
subnet, container or gateway IP not a valid host address of the subnet, container
IP equal to gateway IP, or mtu ≤ 0), `ConfigureContainer` returns one of the
validation errors and leaves the call history as it found it: no kernel
primitive is invoked. -/
theorem ConfigureContainer_gate_failure (env : Env) (containerInterface : String)
    (containerIP gatewayIP : IP) (subnet : Option IPNet) (mtu : Int) (h : List Call)
    (hbad : containerInterface = "" ∨ subnet = none
      ∨ validIP containerIP subnet = .ok false ∨ validIP gatewayIP subnet = .ok false
      ∨ IPEqual containerIP gatewayIP = true ∨ mtu ≤ 0) :
    ∃ e, e ∈ validationErrors
      ∧ ConfigureContainer env containerInterface containerIP gatewayIP subnet mtu h
        = .ok (some e, h) :=
  gate_failure_returns_validation_error env containerInterface containerIP gatewayIP subnet
    mtu h hbad

/-- C2 at a gateway that is the broadcast address of 10.0.0.0/30: a validation
error, and an empty history stays empty. -/
theorem ConfigureContainer_gate_failure_witness :
    ∃ e, e ∈ validationErrors
      ∧ ConfigureContainer envAllOk "eth0" [10, 0, 0, 2] [10, 0, 0, 3] (some net10) 1500 []
        = .ok (some e, []) :=
  ConfigureContainer_gate_failure envAllOk "eth0" [10, 0, 0, 2] [10, 0, 0, 3] (some net10) 1500 []
    (Or.inr (Or.inr (Or.inr (Or.inl (by decide)))))

/-- C3: with a non-empty interface name, a subnet, and container and gateway IPs
that are valid host addresses of the subnet and equal to each other,
`ConfigureContainer` returns `ErrConflictingIPs` and invokes no kernel primitive
(whatever the mtu). -/
theorem ConfigureContainer_conflicting_ips (env : Env) (containerInterface : String)
    (containerIP gatewayIP : IP) (subnet : IPNet) (mtu : Int) (h : List Call)
    (hname : containerInterface ≠ "")
    (hc : validIP containerIP (some subnet) = .ok true)
    (hg : validIP gatewayIP (some subnet) = .ok true)
    (heq : IPEqual containerIP gatewayIP = true) :
    ConfigureContainer env containerInterface containerIP gatewayIP (some subnet) mtu h
      = .ok (some ErrConflictingIPs, h) := by
  apply ConfigureContainer_of_gate_error
  simp [validateContainerConfiguration, hname, hc, hg, heq]

/-- C3 with container IP and gateway IP both 10.0.0.1 in 10.0.0.0/30, mtu 1500. -/
theorem ConfigureContainer_conflicting_ips_witness :
    ConfigureContainer envAllOk "eth0" [10, 0, 0, 1] [10, 0, 0, 1] (some net10) 1500 []
      = .ok (some ErrConflictingIPs, []) :=
  ConfigureContainer_conflicting_ips envAllOk "eth0" [10, 0, 0, 1] [10, 0, 0, 1] net10 1500 []
    (by decide) (by decide) (by decide) (by decide)

/-- C4 as stated fails: with mtu 0 and an empty interface name the error is
`ErrContainerInterfaceMissing`, not `ErrInvalidMtu`. -/
theorem ConfigureContainer_mtu_zero_other_error :
    ConfigureContainer envAllOk "" [10, 0, 0, 2] [10, 0, 0, 1] (some net10) 0 []
        = .ok (some ErrContainerInterfaceMissing, [])
    ∧ ConfigureContainer envAllOk "" [10, 0, 0, 2] [10, 0, 0, 1] (some net10) 0 []
        ≠ .ok (some ErrInvalidMtu, []) := by
  constructor <;> decide

/-- C4, amended: with mtu ≤ 0 `ConfigureContainer` always fails with a
validation error and invokes no kernel primitive; the error is `ErrInvalidMtu`
exactly when the checks that come first pass: the interface name is not empty,
the subnet is not nil, both IPs are valid host addresses of the subnet and they
differ. -/
theorem ConfigureContainer_invalid_mtu (env : Env) (containerInterface : String)
    (containerIP gatewayIP : IP) (subnet : Option IPNet) (mtu : Int) (h : List Call)
    (hmtu : mtu ≤ 0) :
    (∃ e, e ∈ validationErrors
      ∧ ConfigureContainer env containerInterface containerIP gatewayIP subnet mtu h
        = .ok (some e, h))
    ∧ (ConfigureContainer env containerInterface containerIP gatewayIP subnet mtu h
        = .ok (some ErrInvalidMtu, h)
      ↔ (containerInterface ≠ "" ∧ validIP containerIP subnet = .ok true
          ∧ validIP gatewayIP subnet = .ok true ∧ IPEqual containerIP gatewayIP = false)) := by
  refine ⟨gate_failure_returns_validation_error env _ _ _ _ _ h
    (Or.inr (Or.inr (Or.inr (Or.inr (Or.inr hmtu))))), ?_⟩
  by_cases h1 : containerInterface = ""
  · simp [ConfigureContainer, validateContainerConfiguration, h1]
  · cases subnet with
    | none => simp [ConfigureContainer, validateContainerConfiguration, h1, validIP]
    | some s =>
      cases hc : Contains s containerIP && !IPEqual s.IP containerIP
          && !IPEqual (BroadcastIP s) containerIP <;>
      cases hg : Contains s gatewayIP && !IPEqual s.IP gatewayIP
          && !IPEqual (BroadcastIP s) gatewayIP <;>
      cases he : IPEqual containerIP gatewayIP <;>
      simp [ConfigureContainer, validateContainerConfiguration, h1, validIP, hc, hg, he, hmtu]

/-- C4 amended, at mtu 0 with otherwise valid arguments in 10.0.0.0/30. -/
theorem ConfigureContainer_invalid_mtu_witness :
    ConfigureContainer envAllOk "eth0" [10, 0, 0, 2] [10, 0, 0, 1] (some net10) 0 []
      = .ok (some ErrInvalidMtu, []) :=
  (ConfigureContainer_invalid_mtu envAllOk "eth0" [10, 0, 0, 2] [10, 0, 0, 1] (some net10) 0 []
    (by decide)).2.2 ⟨by decide, by decide, by decide, by decide⟩

/-! ## The bridge -/

/-- C5: with `subnetShareable = false`, when the six steps before the bridge
succeed and the bridge name already resolves, `ConfigureHost` returns
`ErrFailedToCreateBridge` right after that lookup: neither `AddToBridge` nor any
later operation (address assignment, link up) is invoked. -/
theorem ConfigureHost_refuses_shared_bridge (env : Env)
    (hostInterface containerInterface : String) (gatewayIP : IP) (bridgeInterface : String)
    (subnet : Option IPNet) (containerPid mtu : Int) (h : List Call)
    (hpre : preBridgeSucceeds env hostInterface containerInterface containerPid mtu h = true)
    (hexists : env.fails (beforeBridge env hostInterface containerInterface containerPid mtu h)
      (.netInterfaceByName bridgeInterface) = false) :
    ConfigureHost env hostInterface containerInterface gatewayIP false bridgeInterface subnet
        containerPid mtu h
      = (some ErrFailedToCreateBridge,
          beforeBridge env hostInterface containerInterface containerPid mtu h
            ++ [.netInterfaceByName bridgeInterface])
    ∧ ∀ c ∈ callsSince h (ConfigureHost env hostInterface containerInterface gatewayIP false
          bridgeInterface subnet containerPid mtu h).2,
        (∀ i b, c ≠ .AddToBridge i b) ∧ (∀ i ip n, c ≠ .NetworkLinkAddIp i ip n)
          ∧ (∀ i, c ≠ .NetworkLinkUp i) := by
  have key : ConfigureHost env hostInterface containerInterface gatewayIP false bridgeInterface
        subnet containerPid mtu h
      = (some ErrFailedToCreateBridge,
          beforeBridge env hostInterface containerInterface containerPid mtu h
            ++ [.netInterfaceByName bridgeInterface]) := by
    simp only [preBridgeSucceeds, Bool.and_eq_true, Bool.not_eq_true'] at hpre
    obtain ⟨⟨⟨⟨⟨h1, h2⟩, h3⟩, h4⟩, h5⟩, h6⟩ := hpre
    simp only [beforeBridge, afterHostEnd, hostIfcOf, containerIfcOf, List.append_assoc,
      List.cons_append, List.nil_append] at h1 h2 h3 h4 h5 h6 hexists ⊢
    simp [ConfigureHost, getBridge, Env.invoke, Env.resolve, h1, h2, h3, h4, h5, h6, hexists]
  refine ⟨key, ?_⟩
  rw [key]
  intro c hc
  simp [callsSince, beforeBridge, afterHostEnd] at hc
  rcases hc with rfl | rfl | rfl | rfl | rfl | rfl | rfl <;> simp

/-- C5 with bridge `br0` already present and sharing not permitted: the call
stops at the bridge lookup. -/
theorem ConfigureHost_refuses_shared_bridge_witness :
    ConfigureHost envAllOk "veth-h" "veth-c" [10, 0, 0, 1] false "br0" (some net10) 42 1500 []
      = (some ErrFailedToCreateBridge,
          [.NetworkCreateVethPair "veth-h" "veth-c" 1,
            .InterfaceByName "veth-h",
            .NetworkSetMTU ⟨1, 1500, "veth-h", [], 0⟩ 1500,
            .NetworkSetNsPid ⟨1, 1500, "veth-h", [], 0⟩ 1,
            .InterfaceByName "veth-c",
            .NetworkSetNsPid ⟨1, 1500, "veth-c", [], 0⟩ 42,
            .netInterfaceByName "br0"]) :=
  (ConfigureHost_refuses_shared_bridge envAllOk "veth-h" "veth-c" [10, 0, 0, 1]
    "br0" (some net10) 42 1500 [] (by decide) (by decide)).1

/-- C6: `getBridge` is get-or-create. If the name resolves it returns that
interface with `created = false` after the lookup alone, without
`NetworkLinkAdd`. Otherwise it attempts the creation: when the creation and the
lookup after it succeed it returns the resolved interface with `created = true`;
when the creation fails, or the lookup after it fails, it returns no interface.
Hence, when the name does not resolve at first, the creation succeeds and from
then on the name resolves, two successive calls report `created = true` and then
`created = false`, with one creation attempt between them. -/
theorem getBridge_get_or_create (env : Env) (ifcName : String) (h : List Call) :
    (env.fails h (.netInterfaceByName ifcName) = false →
      getBridge env ifcName h
        = ((some (env.iface h (.netInterfaceByName ifcName)), false),
            h ++ [.netInterfaceByName ifcName]))
    ∧ (env.fails h (.netInterfaceByName ifcName) = true →
        env.fails (h ++ [.netInterfaceByName ifcName]) (.NetworkLinkAdd ifcName "bridge") = false →
        env.fails (h ++ [.netInterfaceByName ifcName, .NetworkLinkAdd ifcName "bridge"])
          (.netInterfaceByName ifcName) = false →
        getBridge env ifcName h
          = ((some (env.iface (h ++ [.netInterfaceByName ifcName,
                .NetworkLinkAdd ifcName "bridge"]) (.netInterfaceByName ifcName)), true),
              h ++ [.netInterfaceByName ifcName, .NetworkLinkAdd ifcName "bridge",
                .netInterfaceByName ifcName]))
    ∧ (env.fails h (.netInterfaceByName ifcName) = true →
        env.fails (h ++ [.netInterfaceByName ifcName]) (.NetworkLinkAdd ifcName "bridge") = true →
        getBridge env ifcName h
          = ((none, false), h ++ [.netInterfaceByName ifcName, .NetworkLinkAdd ifcName "bridge"]))
    ∧ (env.fails h (.netInterfaceByName ifcName) = true →
        env.fails (h ++ [.netInterfaceByName ifcName]) (.NetworkLinkAdd ifcName "bridge") = false →
        env.fails (h ++ [.netInterfaceByName ifcName, .NetworkLinkAdd ifcName "bridge"])
          (.netInterfaceByName ifcName) = true →
        getBridge env ifcName h
          = ((none, true), h ++ [.netInterfaceByName ifcName, .NetworkLinkAdd ifcName "bridge",
              .netInterfaceByName ifcName]))
    ∧ (env.fails h (.netInterfaceByName ifcName) = true →
        env.fails (h ++ [.netInterfaceByName ifcName]) (.NetworkLinkAdd ifcName "bridge") = false →
        (∀ t, env.fails (h ++ [.netInterfaceByName ifcName, .NetworkLinkAdd ifcName "bridge"] ++ t)
          (.netInterfaceByName ifcName) = false) →
        (getBridge env ifcName h).1.1.isSome = true
        ∧ (getBridge env ifcName h).1.2 = true
        ∧ (getBridge env ifcName (getBridge env ifcName h).2).1.1.isSome = true
        ∧ (getBridge env ifcName (getBridge env ifcName h).2).1.2 = false
        ∧ (getBridge env ifcName (getBridge env ifcName h).2).2
            = h ++ [.netInterfaceByName ifcName, .NetworkLinkAdd ifcName "bridge",
                .netInterfaceByName ifcName, .netInterfaceByName ifcName]
        ∧ (callsSince h (getBridge env ifcName (getBridge env ifcName h).2).2).count
            (.NetworkLinkAdd ifcName "bridge") = 1) := by
  refine ⟨?_, ?_, ?_, ?_, ?_⟩
  · intro h1
    simp [getBridge, Env.resolve, h1]
  · intro h1 h2 h3
    simp [getBridge, Env.resolve, Env.invoke, h1, h2, h3]
  · intro h1 h2
    simp [getBridge, Env.resolve, Env.invoke, h1, h2]
  · intro h1 h2 h3
    simp [getBridge, Env.resolve, Env.invoke, h1, h2, h3]
  · intro h1 h2 h3
    have h4 := h3 []
    have h5 := h3 [.netInterfaceByName ifcName]
    simp only [List.append_assoc, List.cons_append, List.nil_append, List.append_nil] at h4 h5
    have e1 : getBridge env ifcName h
        = ((some (env.iface (h ++ [.netInterfaceByName ifcName,
              .NetworkLinkAdd ifcName "bridge"]) (.netInterfaceByName ifcName)), true),
            h ++ [.netInterfaceByName ifcName, .NetworkLinkAdd ifcName "bridge",
              .netInterfaceByName ifcName]) := by
      simp [getBridge, Env.resolve, Env.invoke, h1, h2, h4]
    have e2 : getBridge env ifcName (h ++ [.netInterfaceByName ifcName,
          .NetworkLinkAdd ifcName "bridge", .netInterfaceByName ifcName])
        = ((some (env.iface (h ++ [.netInterfaceByName ifcName,
              .NetworkLinkAdd ifcName "bridge", .netInterfaceByName ifcName])
              (.netInterfaceByName ifcName)), false),
            h ++ [.netInterfaceByName ifcName, .NetworkLinkAdd ifcName "bridge",
              .netInterfaceByName ifcName, .netInterfaceByName ifcName]) := by
      simp [getBridge, Env.resolve, Env.invoke, h5]
    rw [e1]
    simp only [e2]
    simp [callsSince]

/-- C6 in the kernel where a bridge exists once created: `br0` is created by
the first call and found by the second. -/
theorem getBridge_get_or_create_witness :
    (getBridge envFreshBridge "br0" []).1.1.isSome = true
    ∧ (getBridge envFreshBridge "br0" []).1.2 = true
    ∧ (getBridge envFreshBridge "br0" (getBridge envFreshBridge "br0" []).2).1.1.isSome = true
    ∧ (getBridge envFreshBridge "br0" (getBridge envFreshBridge "br0" []).2).1.2 = false
    ∧ (getBridge envFreshBridge "br0" (getBridge envFreshBridge "br0" []).2).2
        = [.netInterfaceByName "br0", .NetworkLinkAdd "br0" "bridge",
            .netInterfaceByName "br0", .netInterfaceByName "br0"]
    ∧ (callsSince [] (getBridge envFreshBridge "br0"
          (getBridge envFreshBridge "br0" []).2).2).count (.NetworkLinkAdd "br0" "bridge") = 1 :=
  (getBridge_get_or_create envFreshBridge "br0" []).2.2.2.2 (by decide) (by decide)
    (by intro t; simp [envFreshBridge])

/-- C7 as stated fails: in the race on `br0`, where the lookup finds nothing,
the creation fails and a lookup after it would succeed, `getBridge` returns no
interface, and `ConfigureHost` with `subnetShareable = true` returns
`ErrFailedToCreateBridge`. -/
theorem getBridge_race_returns_nil :
    envBridgeRace.fails [] (.netInterfaceByName "br0") = true
    ∧ envBridgeRace.fails [.netInterfaceByName "br0"] (.NetworkLinkAdd "br0" "bridge") = true
    ∧ envBridgeRace.fails [.netInterfaceByName "br0", .NetworkLinkAdd "br0" "bridge"]
        (.netInterfaceByName "br0") = false
    ∧ getBridge envBridgeRace "br0" []
        = ((none, false), [.netInterfaceByName "br0", .NetworkLinkAdd "br0" "bridge"])
    ∧ (ConfigureHost envBridgeRace "veth-h" "veth-c" [10, 0, 0, 1] true "br0" (some net10)
        42 1500 []).1 = some ErrFailedToCreateBridge := by
  refine ⟨?_, ?_, ?_, ?_, ?_⟩ <;> decide

/-- C7, amended: when the lookup finds no interface and the creation fails,
`getBridge` returns no interface with `created = false` and does not look the
name up again, whether or not the device exists by then; `ConfigureHost`, once
the six steps before the bridge have succeeded, then returns
`ErrFailedToCreateBridge` for either value of `subnetShareable` and invokes
nothing after the failed creation. -/
theorem getBridge_creation_failure (env : Env) (hostInterface containerInterface : String)
    (gatewayIP : IP) (subnetShareable : Bool) (bridgeInterface : String)
    (subnet : Option IPNet) (containerPid mtu : Int) (h : List Call) :
    (∀ t, env.fails t (.netInterfaceByName bridgeInterface) = true →
      env.fails (t ++ [.netInterfaceByName bridgeInterface])
        (.NetworkLinkAdd bridgeInterface "bridge") = true →
      getBridge env bridgeInterface t
        = ((none, false),
            t ++ [.netInterfaceByName bridgeInterface, .NetworkLinkAdd bridgeInterface "bridge"]))
    ∧ (preBridgeSucceeds env hostInterface containerInterface containerPid mtu h = true →
      env.fails (beforeBridge env hostInterface containerInterface containerPid mtu h)
        (.netInterfaceByName bridgeInterface) = true →
      env.fails (beforeBridge env hostInterface containerInterface containerPid mtu h
          ++ [.netInterfaceByName bridgeInterface])
        (.NetworkLinkAdd bridgeInterface "bridge") = true →
      ConfigureHost env hostInterface containerInterface gatewayIP subnetShareable
          bridgeInterface subnet containerPid mtu h
        = (some ErrFailedToCreateBridge,
            beforeBridge env hostInterface containerInterface containerPid mtu h
              ++ [.netInterfaceByName bridgeInterface,
                .NetworkLinkAdd bridgeInterface "bridge"])) := by
  constructor
  · intro t hmiss hadd
    simp [getBridge, Env.resolve, Env.invoke, hmiss, hadd]
  · intro hpre hmiss hadd
    simp only [preBridgeSucceeds, Bool.and_eq_true, Bool.not_eq_true'] at hpre
    obtain ⟨⟨⟨⟨⟨h1, h2⟩, h3⟩, h4⟩, h5⟩, h6⟩ := hpre
    simp only [beforeBridge, afterHostEnd, hostIfcOf, containerIfcOf, List.append_assoc,
      List.cons_append, List.nil_append] at h1 h2 h3 h4 h5 h6 hmiss hadd ⊢
    simp [ConfigureHost, getBridge, Env.invoke, Env.resolve, h1, h2, h3, h4, h5, h6, hmiss, hadd]

/-- C7 amended, in the race on `br0` with sharing permitted: the call ends at
the failed creation. -/
theorem getBridge_creation_failure_witness :
    ConfigureHost envBridgeRace "veth-h" "veth-c" [10, 0, 0, 1] true "br0" (some net10) 42 1500 []
      = (some ErrFailedToCreateBridge,
          [.NetworkCreateVethPair "veth-h" "veth-c" 1,
            .InterfaceByName "veth-h",
            .NetworkSetMTU ⟨1, 1500, "veth-h", [], 0⟩ 1500,
            .NetworkSetNsPid ⟨1, 1500, "veth-h", [], 0⟩ 1,
            .InterfaceByName "veth-c",
            .NetworkSetNsPid ⟨1, 1500, "veth-c", [], 0⟩ 42,
            .netInterfaceByName "br0",
            .NetworkLinkAdd "br0" "bridge"]) :=
  (getBridge_creation_failure envBridgeRace "veth-h" "veth-c" [10, 0, 0, 1] true "br0"
    (some net10) 42 1500 []).2 (by decide) (by decide) (by decide)

/-! ## The success sequences -/

/-- C9: when every primitive other than the direct bridge lookup succeeds and
`getBridge` yields a bridge that was created by this call or may be shared,
`ConfigureHost` returns nil and performs exactly: create the veth pair, resolve
the host end, set its MTU, move it into namespace 1, resolve the container end,
move it into the namespace of `containerPid`, get-or-create the bridge (one
lookup for a bridge that exists; lookup, creation, lookup for a new one), attach
the host end to the bridge, then, if and only if the bridge was created by this
call, assign `gatewayIP/subnet` to the bridge and bring it up, and finally bring
the host end up. -/
theorem ConfigureHost_success_sequence (env : Env) (hostInterface containerInterface : String)
    (gatewayIP : IP) (subnetShareable : Bool) (bridgeInterface : String)
    (subnet : Option IPNet) (containerPid mtu : Int) (h : List Call)
    (bridgeIfc : Interface) (created : Bool) (t : List Call)
    (hok : ∀ t c, (∀ n, c ≠ .netInterfaceByName n) → env.fails t c = false)
    (hbridge : getBridge env bridgeInterface
        (beforeBridge env hostInterface containerInterface containerPid mtu h)
      = ((some bridgeIfc, created), t))
    (hshare : created = true ∨ subnetShareable = true) :
    ConfigureHost env hostInterface containerInterface gatewayIP subnetShareable
        bridgeInterface subnet containerPid mtu h
      = (none,
          t ++ [.AddToBridge (hostIfcOf env hostInterface containerInterface h) bridgeIfc]
            ++ (if created then
                  [.NetworkLinkAddIp bridgeIfc gatewayIP subnet, .NetworkLinkUp bridgeIfc]
                else [])
            ++ [.NetworkLinkUp (hostIfcOf env hostInterface containerInterface h)])
    ∧ beforeBridge env hostInterface containerInterface containerPid mtu h
        = h ++ [.NetworkCreateVethPair hostInterface containerInterface 1,
            .InterfaceByName hostInterface,
            .NetworkSetMTU (hostIfcOf env hostInterface containerInterface h) mtu,
            .NetworkSetNsPid (hostIfcOf env hostInterface containerInterface h) 1,
            .InterfaceByName containerInterface,
            .NetworkSetNsPid (containerIfcOf env hostInterface containerInterface mtu h)
              containerPid]
    ∧ t = beforeBridge env hostInterface containerInterface containerPid mtu h
        ++ (if created then
              [.netInterfaceByName bridgeInterface, .NetworkLinkAdd bridgeInterface "bridge",
                .netInterfaceByName bridgeInterface]
            else [.netInterfaceByName bridgeInterface]) := by
  have hlast : t = beforeBridge env hostInterface containerInterface containerPid mtu h
        ++ (if created then
              [.netInterfaceByName bridgeInterface, .NetworkLinkAdd bridgeInterface "bridge",
                .netInterfaceByName bridgeInterface]
            else [.netInterfaceByName bridgeInterface]) := by
    revert hbridge
    generalize beforeBridge env hostInterface containerInterface containerPid mtu h = p
    intro hbridge
    cases h1 : env.fails p (.netInterfaceByName bridgeInterface)
    · simp [getBridge, Env.resolve, Env.invoke, h1] at hbridge
      obtain ⟨⟨-, rfl⟩, rfl⟩ := hbridge
      simp
    · have h2 := hok (p ++ [.netInterfaceByName bridgeInterface])
        (.NetworkLinkAdd bridgeInterface "bridge") (by intro n; simp)
      cases h3 : env.fails (p ++ [.netInterfaceByName bridgeInterface,
          .NetworkLinkAdd bridgeInterface "bridge"]) (.netInterfaceByName bridgeInterface)
      · simp [getBridge, Env.resolve, Env.invoke, h1, h2, h3] at hbridge
        obtain ⟨⟨-, rfl⟩, rfl⟩ := hbridge
        simp
      · simp [getBridge, Env.resolve, Env.invoke, h1, h2, h3] at hbridge
  refine ⟨?_, by simp [beforeBridge, afterHostEnd], hlast⟩
  simp only [beforeBridge, afterHostEnd, hostIfcOf, containerIfcOf, List.append_assoc,
    List.cons_append, List.nil_append] at hbridge ⊢
  rcases hshare with rfl | rfl
  · simp [ConfigureHost, Env.invoke, Env.resolve, hok, hbridge]
  · cases created <;> simp [ConfigureHost, Env.invoke, Env.resolve, hok, hbridge]

/-- C9 for subnet 10.0.0.0/30, gateway 10.0.0.1, mtu 1500 and a bridge `br0`
that does not exist yet. -/
theorem ConfigureHost_success_sequence_witness :
    ConfigureHost envFreshBridge "veth-h" "veth-c" [10, 0, 0, 1] false "br0" (some net10)
        42 1500 []
      = (none,
          [.NetworkCreateVethPair "veth-h" "veth-c" 1,
            .InterfaceByName "veth-h",
            .NetworkSetMTU ⟨1, 1500, "veth-h", [], 0⟩ 1500,
            .NetworkSetNsPid ⟨1, 1500, "veth-h", [], 0⟩ 1,
            .InterfaceByName "veth-c",
            .NetworkSetNsPid ⟨1, 1500, "veth-c", [], 0⟩ 42,
            .netInterfaceByName "br0",
            .NetworkLinkAdd "br0" "bridge",
            .netInterfaceByName "br0",
            .AddToBridge ⟨1, 1500, "veth-h", [], 0⟩ ⟨2, 1500, "br0", [], 0⟩,
            .NetworkLinkAddIp ⟨2, 1500, "br0", [], 0⟩ [10, 0, 0, 1] (some net10),
            .NetworkLinkUp ⟨2, 1500, "br0", [], 0⟩,
            .NetworkLinkUp ⟨1, 1500, "veth-h", [], 0⟩]) :=
  (ConfigureHost_success_sequence envFreshBridge "veth-h" "veth-c" [10, 0, 0, 1] false "br0"
    (some net10) 42 1500 [] ⟨2, 1500, "br0", [], 0⟩ true
    [.NetworkCreateVethPair "veth-h" "veth-c" 1,
      .InterfaceByName "veth-h",
      .NetworkSetMTU ⟨1, 1500, "veth-h", [], 0⟩ 1500,
      .NetworkSetNsPid ⟨1, 1500, "veth-h", [], 0⟩ 1,
      .InterfaceByName "veth-c",
      .NetworkSetNsPid ⟨1, 1500, "veth-c", [], 0⟩ 42,
      .netInterfaceByName "br0",
      .NetworkLinkAdd "br0" "bridge",
      .netInterfaceByName "br0"]
    (by intro t c hc; cases c <;> simp_all [envFreshBridge])
    (by decide) (Or.inl rfl)).1

/-- C10: for arguments that pass the validation gate (non-empty interface name,
a subnet, container and gateway IPs valid host addresses of it and different
from each other, mtu > 0), in an environment where every primitive succeeds,
`ConfigureContainer` returns nil and performs exactly: resolve `lo`, assign it
127.0.0.1/8, bring it up, resolve the container interface, set its MTU, assign
it `containerIP/subnet`, add the default route via `gatewayIP` through the
container interface, bring the interface up. -/
theorem ConfigureContainer_success_sequence (env : Env) (containerInterface : String)
    (containerIP gatewayIP : IP) (subnet : IPNet) (mtu : Int) (h : List Call)
    (hname : containerInterface ≠ "")
    (hc : validIP containerIP (some subnet) = .ok true)
    (hg : validIP gatewayIP (some subnet) = .ok true)
    (hne : IPEqual containerIP gatewayIP = false)
    (hmtu : 0 < mtu)
    (hok : ∀ t c, env.fails t c = false) :
    ConfigureContainer env containerInterface containerIP gatewayIP (some subnet) mtu h
      = .ok (none,
          h ++ [.InterfaceByName "lo",
            .NetworkLinkAddIp (loIfcOf env h) loopbackIP (some liIpNet),
            .NetworkLinkUp (loIfcOf env h),
            .InterfaceByName containerInterface,
            .NetworkSetMTU (ifcOf env containerInterface h) mtu,
            .NetworkLinkAddIp (ifcOf env containerInterface h) containerIP (some subnet),
            .AddDefaultGw (IPString gatewayIP) containerInterface,
            .NetworkLinkUp (ifcOf env containerInterface h)]) := by
  have hv : validateContainerConfiguration containerInterface containerIP gatewayIP
      (some subnet) mtu = .ok none := by
    simp [validateContainerConfiguration, hname, hc, hg, hne, not_le.mpr hmtu]
  simp [ConfigureContainer, hv, Env.invoke, Env.resolve, hok, loIfcOf, ifcOf, afterLoopback]

/-- C10 for subnet 10.0.0.0/30, gateway 10.0.0.1, container IP 10.0.0.2 and
mtu 1500. -/
theorem ConfigureContainer_success_sequence_witness :
    ConfigureContainer envAllOk "eth0" [10, 0, 0, 2] [10, 0, 0, 1] (some net10) 1500 []
      = .ok (none,
          [.InterfaceByName "lo",
            .NetworkLinkAddIp ⟨1, 1500, "lo", [], 0⟩
              [0, 0, 0, 0, 0, 0, 0, 0, 0, 0, 255, 255, 127, 0, 0, 1]
              (some ⟨[127, 0, 0, 0], [255, 0, 0, 0]⟩),
            .NetworkLinkUp ⟨1, 1500, "lo", [], 0⟩,
            .InterfaceByName "eth0",
            .NetworkSetMTU ⟨1, 1500, "eth0", [], 0⟩ 1500,
            .NetworkLinkAddIp ⟨1, 1500, "eth0", [], 0⟩ [10, 0, 0, 2] (some net10),
            .AddDefaultGw "10.0.0.1" "eth0",
            .NetworkLinkUp ⟨1, 1500, "eth0", [], 0⟩]) :=
  ConfigureContainer_success_sequence envAllOk "eth0" [10, 0, 0, 2] [10, 0, 0, 1] net10 1500 []
    (by decide) (by decide) (by decide) (by decide) (by decide) (fun _ _ => rfl)

/-! ## The order of the validation checks -/

/-- C12: `validateContainerConfiguration` returns the error of the first check
that fails, in the order empty interface name, nil subnet, invalid container
IP, invalid gateway IP, container IP equal to gateway IP, mtu ≤ 0; it returns
nil exactly when none of the six holds; and it never panics on a nil pointer:
with a nil subnet, on which `validIP` would panic, it returns before any address
check. -/
theorem validateContainerConfiguration_first_failing_check (containerInterface : String)
    (containerIP gatewayIP : IP) (subnet : Option IPNet) (mtu : Int) :
    (containerInterface = "" →
      validateContainerConfiguration containerInterface containerIP gatewayIP subnet mtu
        = .ok (some ErrContainerInterfaceMissing))
    ∧ (containerInterface ≠ "" → subnet = none →
      validateContainerConfiguration containerInterface containerIP gatewayIP subnet mtu
        = .ok (some ErrSubnetNil))
    ∧ (containerInterface ≠ "" → subnet ≠ none → validIP containerIP subnet = .ok false →
      validateContainerConfiguration containerInterface containerIP gatewayIP subnet mtu
        = .ok (some ErrInvalidContainerIP))
    ∧ (containerInterface ≠ "" → subnet ≠ none → validIP containerIP subnet = .ok true →
      validIP gatewayIP subnet = .ok false →
      validateContainerConfiguration containerInterface containerIP gatewayIP subnet mtu
        = .ok (some ErrInvalidGatewayIP))
    ∧ (containerInterface ≠ "" → subnet ≠ none → validIP containerIP subnet = .ok true →
      validIP gatewayIP subnet = .ok true → IPEqual containerIP gatewayIP = true →
      validateContainerConfiguration containerInterface containerIP gatewayIP subnet mtu
        = .ok (some ErrConflictingIPs))
    ∧ (containerInterface ≠ "" → subnet ≠ none → validIP containerIP subnet = .ok true →
      validIP gatewayIP subnet = .ok true → IPEqual containerIP gatewayIP = false → mtu ≤ 0 →
      validateContainerConfiguration containerInterface containerIP gatewayIP subnet mtu
        = .ok (some ErrInvalidMtu))
    ∧ (validateContainerConfiguration containerInterface containerIP gatewayIP subnet mtu
        = .ok none
      ↔ (containerInterface ≠ "" ∧ subnet ≠ none ∧ validIP containerIP subnet = .ok true
          ∧ validIP gatewayIP subnet = .ok true ∧ IPEqual containerIP gatewayIP = false
          ∧ 0 < mtu))
    ∧ validateContainerConfiguration containerInterface containerIP gatewayIP subnet mtu
        ≠ .error .nilPointerDereference
    ∧ validIP containerIP none = .error .nilPointerDereference
    ∧ validIP gatewayIP none = .error .nilPointerDereference
    ∧ validateContainerConfiguration containerInterface containerIP gatewayIP none mtu
        = .ok (some (if containerInterface = "" then ErrContainerInterfaceMissing
            else ErrSubnetNil)) := by
  refine ⟨?_, ?_, ?_, ?_, ?_, ?_, ?_, ?_, rfl, rfl, ?_⟩
  · intro h1
    simp [validateContainerConfiguration, h1]
  · intro h1 h2
    simp [validateContainerConfiguration, h1, h2]
  · intro h1 h2 h3
    simp [validateContainerConfiguration, h1, h2, h3]
  · intro h1 h2 h3 h4
    simp [validateContainerConfiguration, h1, h2, h3, h4]
  · intro h1 h2 h3 h4 h5
    simp [validateContainerConfiguration, h1, h2, h3, h4, h5]
  · intro h1 h2 h3 h4 h5 h6
    simp [validateContainerConfiguration, h1, h2, h3, h4, h5, h6]
  · by_cases h1 : containerInterface = ""
    · simp [validateContainerConfiguration, h1]
    · cases subnet with
      | none => simp [validateContainerConfiguration, h1]
      | some s =>
        cases hc : Contains s containerIP && !IPEqual s.IP containerIP
            && !IPEqual (BroadcastIP s) containerIP <;>
        cases hg : Contains s gatewayIP && !IPEqual s.IP gatewayIP
            && !IPEqual (BroadcastIP s) gatewayIP <;>
        cases he : IPEqual containerIP gatewayIP <;>
        by_cases hm : mtu ≤ 0 <;>
        first
        | (simp [validateContainerConfiguration, h1, validIP, hc, hg, he, hm]; done)
        | (simp [validateContainerConfiguration, h1, validIP, hc, hg, he, hm]; omega)
  · by_cases h1 : containerInterface = ""
    · simp [validateContainerConfiguration, h1]
    · cases subnet with
      | none => simp [validateContainerConfiguration, h1]
      | some s =>
        cases hc : Contains s containerIP && !IPEqual s.IP containerIP
            && !IPEqual (BroadcastIP s) containerIP <;>
        cases hg : Contains s gatewayIP && !IPEqual s.IP gatewayIP
            && !IPEqual (BroadcastIP s) gatewayIP <;>
        cases he : IPEqual containerIP gatewayIP <;>
        by_cases hm : mtu ≤ 0 <;>
        simp [validateContainerConfiguration, h1, validIP, hc, hg, he, hm]
  · by_cases h1 : containerInterface = "" <;> simp [validateContainerConfiguration, h1]

/-- C12 in 10.0.0.0/30: a gateway that is the broadcast address is reported
before the mtu of 0 is, valid arguments pass, and a nil subnet is reported
without a panic. -/
theorem validateContainerConfiguration_first_failing_check_witness :
    validateContainerConfiguration "eth0" [10, 0, 0, 2] [10, 0, 0, 3] (some net10) 0
        = .ok (some ErrInvalidGatewayIP)
    ∧ validateContainerConfiguration "eth0" [10, 0, 0, 2] [10, 0, 0, 1] (some net10) 1500
        = .ok none
    ∧ validateContainerConfiguration "eth0" [10, 0, 0, 2] [10, 0, 0, 1] none 1500
        = .ok (some ErrSubnetNil) :=
  ⟨(validateContainerConfiguration_first_failing_check "eth0" [10, 0, 0, 2] [10, 0, 0, 3]
      (some net10) 0).2.2.2.1 (by decide) (by decide) (by decide) (by decide),
   (validateContainerConfiguration_first_failing_check "eth0" [10, 0, 0, 2] [10, 0, 0, 1]
      (some net10) 1500).2.2.2.2.2.2.1.2
      ⟨by decide, by decide, by decide, by decide, by decide, by decide⟩,
   (validateContainerConfiguration_first_failing_check "eth0" [10, 0, 0, 2] [10, 0, 0, 1]
      none 1500).2.1 (by decide) rfl⟩

/-! ## Fail-fast -/

theorem failFast_of_allSucceed (env : Env) (plan : List (Call × Err)) (h : List Call)
    (hs : allSucceed env h (planCalls plan) = true) :
    failFast env h plan = (none, h ++ planCalls plan) := by
  induction plan generalizing h with
  | nil => simp [failFast, planCalls]
  | cons p rest ih =>
    obtain ⟨c, e⟩ := p
    simp only [planCalls, List.map_cons, allSucceed, Bool.and_eq_true, Bool.not_eq_true'] at hs
    simp [failFast, hs.1, planCalls, ih (h ++ [c]) hs.2]

theorem failFast_nil_iff (env : Env) (plan : List (Call × Err)) (h : List Call) :
    (failFast env h plan).1 = none ↔ allSucceed env h (planCalls plan) = true := by
  induction plan generalizing h with
  | nil => simp [failFast, planCalls, allSucceed]
  | cons p rest ih =>
    obtain ⟨c, e⟩ := p
    cases hc : env.fails h c
    · simpa [failFast, planCalls, allSucceed, hc] using ih (h ++ [c])
    · simp [failFast, planCalls, allSucceed, hc]

theorem failFast_fails_at (env : Env) (plan : List (Call × Err)) (h : List Call) (k : Nat)
    (c : Call) (e : Err) (hk : plan[k]? = some (c, e))
    (hs : allSucceed env h (planCalls (plan.take k)) = true)
    (hf : env.fails (h ++ planCalls (plan.take k)) c = true) :
    failFast env h plan = (some e, h ++ planCalls (plan.take k) ++ [c]) := by
  induction plan generalizing h k with
  | nil => simp at hk
  | cons p rest ih =>
    obtain ⟨c0, e0⟩ := p
    cases k with
    | zero =>
      simp only [List.getElem?_cons_zero, Option.some.injEq, Prod.mk.injEq] at hk
      obtain ⟨rfl, rfl⟩ := hk
      simp only [List.take_zero, planCalls, List.map_nil, List.append_nil] at hf ⊢
      simp [failFast, hf]
    | succ k =>
      simp only [List.getElem?_cons_succ] at hk
      simp only [List.take_succ_cons, planCalls, List.map_cons, allSucceed, Bool.and_eq_true,
        Bool.not_eq_true'] at hs hf ⊢
      have hf' : env.fails (h ++ [c0] ++ planCalls (rest.take k)) c = true := by
        simpa [planCalls] using hf
      have := ih (h ++ [c0]) k hk hs.2 hf'
      simp [failFast, hs.1, this, planCalls]

/-- After the gate, `ConfigureContainer` is the fail-fast run of its plan. -/
theorem ConfigureContainer_eq_failFast (env : Env) (containerInterface : String)
    (containerIP gatewayIP : IP) (subnet : Option IPNet) (mtu : Int) (h : List Call)
    (hv : validateContainerConfiguration containerInterface containerIP gatewayIP subnet mtu
      = .ok none) :
    ConfigureContainer env containerInterface containerIP gatewayIP subnet mtu h
      = .ok (failFast env h
          (containerPlan env containerInterface containerIP gatewayIP subnet mtu h)) := by
  simp only [ConfigureContainer, hv, Env.invoke, Env.resolve, containerPlan, failFast, loIfcOf,
    ifcOf, afterLoopback, List.append_assoc, List.cons_append, List.nil_append]
  split_ifs <;> simp [*]

/-- The function `ConfigureHost` is the fail-fast run of the six steps before the bridge,
then the bridge step, then the fail-fast run of the steps after it. -/
theorem ConfigureHost_eq_failFast (env : Env) (hostInterface containerInterface : String)
    (gatewayIP : IP) (subnetShareable : Bool) (bridgeInterface : String)
    (subnet : Option IPNet) (containerPid mtu : Int) (h : List Call) :
    ConfigureHost env hostInterface containerInterface gatewayIP subnetShareable
        bridgeInterface subnet containerPid mtu h
      = match failFast env h
          (hostPlanBeforeBridge env hostInterface containerInterface containerPid mtu h) with
        | (some e, t) => (some e, t)
        | (none, t) =>
          match getBridge env bridgeInterface t with
          | ((none, _), t) => (some ErrFailedToCreateBridge, t)
          | ((some bridgeIfc, created), t) =>
            if !created && !subnetShareable then (some ErrFailedToCreateBridge, t)
            else failFast env t (hostPlanAfterBridge
              (hostIfcOf env hostInterface containerInterface h) bridgeIfc created gatewayIP
              subnet) := by
  simp only [ConfigureHost, Env.invoke, Env.resolve, hostPlanBeforeBridge, failFast, hostIfcOf,
    containerIfcOf, afterHostEnd, List.append_assoc, List.cons_append, List.nil_append]
  split_ifs
  all_goals try simp [*]
  generalize getBridge env bridgeInterface _ = g
  obtain ⟨⟨ifc, created⟩, t⟩ := g
  cases ifc with
  | none => rfl
  | some b =>
    cases created <;> cases subnetShareable <;>
      simp only [hostPlanAfterBridge, failFast, Env.invoke, Bool.false_eq_true, ↓reduceIte,
        List.singleton_append, List.nil_append, List.cons_append, List.append_assoc, and_self,
        and_false, false_and, Bool.true_eq_false] <;>
      split_ifs <;> simp [*]

theorem beforeBridge_eq_plan (env : Env) (hostInterface containerInterface : String)
    (containerPid mtu : Int) (h : List Call) :
    beforeBridge env hostInterface containerInterface containerPid mtu h
      = h ++ planCalls
          (hostPlanBeforeBridge env hostInterface containerInterface containerPid mtu h) := by
  simp [beforeBridge, afterHostEnd, hostPlanBeforeBridge, planCalls]

/-- A failure among the six steps before the bridge is what `ConfigureHost` returns. -/
theorem ConfigureHost_of_early_failure (env : Env) (hostInterface containerInterface : String)
    (gatewayIP : IP) (subnetShareable : Bool) (bridgeInterface : String)
    (subnet : Option IPNet) (containerPid mtu : Int) (h : List Call) (e : Err) (t : List Call)
    (hf : failFast env h
        (hostPlanBeforeBridge env hostInterface containerInterface containerPid mtu h)
      = (some e, t)) :
    ConfigureHost env hostInterface containerInterface gatewayIP subnetShareable
        bridgeInterface subnet containerPid mtu h = (some e, t) := by
  rw [ConfigureHost_eq_failFast, hf]

/-- Once the six steps before the bridge have succeeded, `ConfigureHost` goes on
from `getBridge` at the history `beforeBridge`. -/
theorem ConfigureHost_of_early_success (env : Env) (hostInterface containerInterface : String)
    (gatewayIP : IP) (subnetShareable : Bool) (bridgeInterface : String)
    (subnet : Option IPNet) (containerPid mtu : Int) (h : List Call)
    (hs : allSucceed env h (planCalls
        (hostPlanBeforeBridge env hostInterface containerInterface containerPid mtu h)) = true) :
    ConfigureHost env hostInterface containerInterface gatewayIP subnetShareable
        bridgeInterface subnet containerPid mtu h
      = match getBridge env bridgeInterface
          (beforeBridge env hostInterface containerInterface containerPid mtu h) with
        | ((none, _), t) => (some ErrFailedToCreateBridge, t)
        | ((some bridgeIfc, created), t) =>
          if !created && !subnetShareable then (some ErrFailedToCreateBridge, t)
          else failFast env t (hostPlanAfterBridge
            (hostIfcOf env hostInterface containerInterface h) bridgeIfc created gatewayIP
            subnet) := by
  rw [ConfigureHost_eq_failFast, failFast_of_allSucceed env _ h hs, beforeBridge_eq_plan]

/-- When `getBridge` yields no interface, its last call is the one that failed:
the creation, or the lookup after a creation that succeeded. -/
theorem getBridge_none_calls (env : Env) (ifcName : String) (p : List Call) (created : Bool)
    (t : List Call) (hg : getBridge env ifcName p = ((none, created), t)) :
    (t = p ++ [.netInterfaceByName ifcName, .NetworkLinkAdd ifcName "bridge"]
        ∧ env.fails (p ++ [.netInterfaceByName ifcName]) (.NetworkLinkAdd ifcName "bridge")
          = true)
    ∨ (t = p ++ [.netInterfaceByName ifcName, .NetworkLinkAdd ifcName "bridge",
          .netInterfaceByName ifcName]
        ∧ env.fails (p ++ [.netInterfaceByName ifcName, .NetworkLinkAdd ifcName "bridge"])
          (.netInterfaceByName ifcName) = true) := by
  cases h1 : env.fails p (.netInterfaceByName ifcName)
  · simp [getBridge, Env.resolve, Env.invoke, h1] at hg
  · cases h2 : env.fails (p ++ [.netInterfaceByName ifcName]) (.NetworkLinkAdd ifcName "bridge")
    · cases h3 : env.fails (p ++ [.netInterfaceByName ifcName,
          .NetworkLinkAdd ifcName "bridge"]) (.netInterfaceByName ifcName)
      · simp [getBridge, Env.resolve, Env.invoke, h1, h2, h3] at hg
      · simp [getBridge, Env.resolve, Env.invoke, h1, h2, h3] at hg
        exact Or.inr ⟨hg.2.symm, rfl⟩
    · simp [getBridge, Env.resolve, Env.invoke, h1, h2] at hg
      exact Or.inl ⟨hg.2.symm, rfl⟩

/-- C11: `ConfigureContainer` and `ConfigureHost` are fail-fast.
`ConfigureContainer` returns nil exactly when the gate passes and every call of
its plan succeeds; when the first `k` calls succeed and the next one fails, it
returns the sentinel of that step, having made those calls and nothing after.
`ConfigureHost` returns nil exactly when the six steps before the bridge succeed,
`getBridge` yields a bridge that is new or may be shared, and every later call
succeeds; a failing call, before or after the bridge, ends the run with the
sentinel of its step and with no later call; when the bridge step fails
(`getBridge` yields no interface, or an existing bridge may not be shared) the
result is `ErrFailedToCreateBridge` and nothing is called after `getBridge`. In
particular a failing veth-pair creation gives `ErrFailedToCreateVethPair` with
that one call made. -/
theorem configure_fail_fast (env : Env) (hostInterface containerInterface : String)
    (containerIP gatewayIP : IP) (subnetShareable : Bool) (bridgeInterface : String)
    (subnet : Option IPNet) (containerPid mtu : Int) (h : List Call) :
    ((∃ t, ConfigureContainer env containerInterface containerIP gatewayIP subnet mtu h
          = .ok (none, t))
      ↔ (validateContainerConfiguration containerInterface containerIP gatewayIP subnet mtu
            = .ok none
          ∧ allSucceed env h (planCalls
              (containerPlan env containerInterface containerIP gatewayIP subnet mtu h))
            = true))
    ∧ (validateContainerConfiguration containerInterface containerIP gatewayIP subnet mtu
          = .ok none →
        ∀ (k : Nat) (c : Call) (e : Err),
          (containerPlan env containerInterface containerIP gatewayIP subnet mtu h)[k]?
            = some (c, e) →
          allSucceed env h (planCalls
            ((containerPlan env containerInterface containerIP gatewayIP subnet mtu h).take k))
            = true →
          env.fails (h ++ planCalls
            ((containerPlan env containerInterface containerIP gatewayIP subnet mtu h).take k))
            c = true →
          ConfigureContainer env containerInterface containerIP gatewayIP subnet mtu h
            = .ok (some e, h ++ planCalls
                ((containerPlan env containerInterface containerIP gatewayIP subnet mtu
                  h).take k) ++ [c]))
    ∧ ((ConfigureHost env hostInterface containerInterface gatewayIP subnetShareable
          bridgeInterface subnet containerPid mtu h).1 = none
      ↔ (allSucceed env h (planCalls
            (hostPlanBeforeBridge env hostInterface containerInterface containerPid mtu h))
            = true
          ∧ ∃ (bridgeIfc : Interface) (created : Bool) (t : List Call),
              getBridge env bridgeInterface
                  (beforeBridge env hostInterface containerInterface containerPid mtu h)
                = ((some bridgeIfc, created), t)
              ∧ (created = true ∨ subnetShareable = true)
              ∧ allSucceed env t (planCalls (hostPlanAfterBridge
                  (hostIfcOf env hostInterface containerInterface h) bridgeIfc created
                  gatewayIP subnet)) = true))
    ∧ (∀ (k : Nat) (c : Call) (e : Err),
        (hostPlanBeforeBridge env hostInterface containerInterface containerPid mtu h)[k]?
          = some (c, e) →
        allSucceed env h (planCalls
          ((hostPlanBeforeBridge env hostInterface containerInterface containerPid mtu
            h).take k)) = true →
        env.fails (h ++ planCalls
          ((hostPlanBeforeBridge env hostInterface containerInterface containerPid mtu
            h).take k)) c = true →
        ConfigureHost env hostInterface containerInterface gatewayIP subnetShareable
            bridgeInterface subnet containerPid mtu h
          = (some e, h ++ planCalls
              ((hostPlanBeforeBridge env hostInterface containerInterface containerPid mtu
                h).take k) ++ [c]))
    ∧ (allSucceed env h (planCalls
          (hostPlanBeforeBridge env hostInterface containerInterface containerPid mtu h))
          = true →
        (∀ (created : Bool) (t : List Call),
          getBridge env bridgeInterface
              (beforeBridge env hostInterface containerInterface containerPid mtu h)
            = ((none, created), t) →
          ConfigureHost env hostInterface containerInterface gatewayIP subnetShareable
              bridgeInterface subnet containerPid mtu h
            = (some ErrFailedToCreateBridge, t)
          ∧ ((t = beforeBridge env hostInterface containerInterface containerPid mtu h
                  ++ [.netInterfaceByName bridgeInterface,
                    .NetworkLinkAdd bridgeInterface "bridge"]
              ∧ env.fails (beforeBridge env hostInterface containerInterface containerPid mtu h
                  ++ [.netInterfaceByName bridgeInterface])
                  (.NetworkLinkAdd bridgeInterface "bridge") = true)
            ∨ (t = beforeBridge env hostInterface containerInterface containerPid mtu h
                  ++ [.netInterfaceByName bridgeInterface,
                    .NetworkLinkAdd bridgeInterface "bridge",
                    .netInterfaceByName bridgeInterface]
              ∧ env.fails (beforeBridge env hostInterface containerInterface containerPid mtu h
                  ++ [.netInterfaceByName bridgeInterface,
                    .NetworkLinkAdd bridgeInterface "bridge"])
                  (.netInterfaceByName bridgeInterface) = true)))
        ∧ (∀ (bridgeIfc : Interface) (t : List Call),
          getBridge env bridgeInterface
              (beforeBridge env hostInterface containerInterface containerPid mtu h)
            = ((some bridgeIfc, false), t) →
          subnetShareable = false →
          ConfigureHost env hostInterface containerInterface gatewayIP subnetShareable
              bridgeInterface subnet containerPid mtu h
            = (some ErrFailedToCreateBridge, t))
        ∧ (∀ (bridgeIfc : Interface) (created : Bool) (t : List Call),
          getBridge env bridgeInterface
              (beforeBridge env hostInterface containerInterface containerPid mtu h)
            = ((some bridgeIfc, created), t) →
          (created = true ∨ subnetShareable = true) →
          ∀ (k : Nat) (c : Call) (e : Err),
            (hostPlanAfterBridge (hostIfcOf env hostInterface containerInterface h) bridgeIfc
              created gatewayIP subnet)[k]? = some (c, e) →
            allSucceed env t (planCalls ((hostPlanAfterBridge
              (hostIfcOf env hostInterface containerInterface h) bridgeIfc created gatewayIP
              subnet).take k)) = true →
            env.fails (t ++ planCalls ((hostPlanAfterBridge
              (hostIfcOf env hostInterface containerInterface h) bridgeIfc created gatewayIP
              subnet).take k)) c = true →
            ConfigureHost env hostInterface containerInterface gatewayIP subnetShareable
                bridgeInterface subnet containerPid mtu h
              = (some e, t ++ planCalls ((hostPlanAfterBridge
                  (hostIfcOf env hostInterface containerInterface h) bridgeIfc created
                  gatewayIP subnet).take k) ++ [c])))
    ∧ beforeBridge env hostInterface containerInterface containerPid mtu h
        = h ++ planCalls
            (hostPlanBeforeBridge env hostInterface containerInterface containerPid mtu h)
    ∧ (env.fails h (.NetworkCreateVethPair hostInterface containerInterface 1) = true →
        ConfigureHost env hostInterface containerInterface gatewayIP subnetShareable
            bridgeInterface subnet containerPid mtu h
          = (some ErrFailedToCreateVethPair,
              h ++ [.NetworkCreateVethPair hostInterface containerInterface 1])) := by
  refine ⟨?_, ?_, ?_, ?_, ?_, beforeBridge_eq_plan env _ _ _ _ h, ?_⟩
  · constructor
    · rintro ⟨t, ht⟩
      have hv : validateContainerConfiguration containerInterface containerIP gatewayIP subnet
          mtu = .ok none := by
        rcases hval : validateContainerConfiguration containerInterface containerIP gatewayIP
            subnet mtu with p | (_ | err)
        · simp [ConfigureContainer, hval] at ht
        · rfl
        · simp [ConfigureContainer, hval] at ht
      refine ⟨hv, ?_⟩
      rw [ConfigureContainer_eq_failFast env _ _ _ _ _ h hv] at ht
      rw [← failFast_nil_iff]
      simp only [Except.ok.injEq] at ht
      rw [ht]
    · rintro ⟨hv, hs⟩
      exact ⟨_, by rw [ConfigureContainer_eq_failFast env _ _ _ _ _ h hv,
        failFast_of_allSucceed env _ h hs]⟩
  · intro hv k c e hk hs hf
    rw [ConfigureContainer_eq_failFast env _ _ _ _ _ h hv,
      failFast_fails_at env _ h k c e hk hs hf]
  · constructor
    · intro hnil
      have hs : allSucceed env h (planCalls
          (hostPlanBeforeBridge env hostInterface containerInterface containerPid mtu h))
          = true := by
        rw [← failFast_nil_iff]
        rcases hff : failFast env h
            (hostPlanBeforeBridge env hostInterface containerInterface containerPid mtu h)
          with ⟨_ | e, t⟩
        · rfl
        · rw [ConfigureHost_of_early_failure env _ _ _ _ _ _ _ _ h e t hff] at hnil
          cases hnil
      refine ⟨hs, ?_⟩
      rw [ConfigureHost_of_early_success env _ _ _ _ _ _ _ _ h hs] at hnil
      rcases hg : getBridge env bridgeInterface
          (beforeBridge env hostInterface containerInterface containerPid mtu h)
        with ⟨⟨_ | b, created⟩, t⟩
      · simp [hg] at hnil
      · refine ⟨b, created, t, rfl, ?_⟩
        simp only [hg] at hnil
        by_cases hsh : (!created && !subnetShareable) = true
        · simp [hsh] at hnil
        · rw [if_neg hsh] at hnil
          refine ⟨?_, (failFast_nil_iff env _ t).mp hnil⟩
          cases created <;> cases subnetShareable <;> simp at hsh ⊢
    · rintro ⟨hs, b, created, t, hg, hsh, htail⟩
      rw [ConfigureHost_of_early_success env _ _ _ _ _ _ _ _ h hs, hg]
      have hno : ¬ ((!created && !subnetShareable) = true) := by
        rcases hsh with rfl | rfl <;> simp
      simp only [if_neg hno]
      exact (failFast_nil_iff env _ t).mpr htail
  · intro k c e hk hs hf
    exact ConfigureHost_of_early_failure env _ _ _ _ _ _ _ _ h e _
      (failFast_fails_at env _ h k c e hk hs hf)
  · intro hs
    refine ⟨?_, ?_, ?_⟩
    · intro created t hg
      refine ⟨?_, getBridge_none_calls env _ _ created t hg⟩
      rw [ConfigureHost_of_early_success env _ _ _ _ _ _ _ _ h hs, hg]
    · intro b t hg hsh
      rw [ConfigureHost_of_early_success env _ _ _ _ _ _ _ _ h hs, hg]
      simp [hsh]
    · intro b created t hg hsh k c e hk htail hf
      rw [ConfigureHost_of_early_success env _ _ _ _ _ _ _ _ h hs, hg]
      have hno : ¬ ((!created && !subnetShareable) = true) := by
        rcases hsh with rfl | rfl <;> simp
      simp only [if_neg hno]
      exact failFast_fails_at env _ t k c e hk htail hf
  · intro hf
    simp [ConfigureHost, Env.invoke, hf]

/-- C11 at two failures. With the default route refused, `ConfigureContainer`
stops at `AddDefaultGw` with `ErrFailedToAddGateway` and never brings the
interface up; with the veth pair refused, `ConfigureHost` stops at once. -/
theorem configure_fail_fast_witness :
    ConfigureContainer envGatewayFails "eth0" [10, 0, 0, 2] [10, 0, 0, 1] (some net10) 1500 []
        = .ok (some ErrFailedToAddGateway,
            [.InterfaceByName "lo",
              .NetworkLinkAddIp ⟨1, 1500, "lo", [], 0⟩
                [0, 0, 0, 0, 0, 0, 0, 0, 0, 0, 255, 255, 127, 0, 0, 1]
                (some ⟨[127, 0, 0, 0], [255, 0, 0, 0]⟩),
              .NetworkLinkUp ⟨1, 1500, "lo", [], 0⟩,
              .InterfaceByName "eth0",
              .NetworkSetMTU ⟨1, 1500, "eth0", [], 0⟩ 1500,
              .NetworkLinkAddIp ⟨1, 1500, "eth0", [], 0⟩ [10, 0, 0, 2] (some net10),
              .AddDefaultGw "10.0.0.1" "eth0"])
    ∧ ConfigureHost envVethFails "veth-h" "veth-c" [10, 0, 0, 1] true "br0" (some net10)
          42 1500 []
        = (some ErrFailedToCreateVethPair, [.NetworkCreateVethPair "veth-h" "veth-c" 1]) :=
  ⟨(configure_fail_fast envGatewayFails "veth-h" "eth0" [10, 0, 0, 2] [10, 0, 0, 1] true "br0"
      (some net10) 42 1500 []).2.1 (by decide) 6 (.AddDefaultGw "10.0.0.1" "eth0")
      ErrFailedToAddGateway (by decide) (by decide) (by decide),
   (configure_fail_fast envVethFails "veth-h" "veth-c" [10, 0, 0, 2] [10, 0, 0, 1] true "br0"
      (some net10) 42 1500 []).2.2.2.2.2.2 (by decide)⟩

/-! ## Errors and failing steps -/

theorem validation_error_mem (containerInterface : String)
    (containerIP gatewayIP : IP) (subnet : Option IPNet) (mtu : Int) (e : Err)
    (hv : validateContainerConfiguration containerInterface containerIP gatewayIP subnet mtu
      = .ok (some e)) : e ∈ validationErrors := by
  unfold validateContainerConfiguration at hv
  repeat' split at hv
  all_goals simp_all [validationErrors]

theorem ConfigureContainer_ops_of_error (env : Env) (containerInterface : String)
    (containerIP gatewayIP : IP) (subnet : Option IPNet) (mtu : Int) (h : List Call)
    (e : Err) (t : List Call)
    (hrun : ConfigureContainer env containerInterface containerIP gatewayIP subnet mtu h
      = .ok (some e, t)) :
    (callsSince h t).map Call.op = containerOpsAt e := by
  simp only [ConfigureContainer, Env.invoke, Env.resolve] at hrun
  split at hrun
  · cases hrun
  · simp only [Except.ok.injEq, Prod.mk.injEq, Option.some.injEq] at hrun
    obtain ⟨rfl, rfl⟩ := hrun
    rename_i hv
    have hmem := validation_error_mem _ _ _ _ _ _ hv
    simp only [validationErrors, List.mem_cons, List.mem_singleton, List.not_mem_nil,
      or_false] at hmem
    rcases hmem with rfl | rfl | rfl | rfl | rfl | rfl <;> simp [callsSince, containerOpsAt]
  · repeat' split at hrun
    all_goals
      simp only [Prod.mk.injEq, Except.ok.injEq, Option.some.injEq] at *
      casesm* _ ∧ _
      first
      | contradiction
      | (subst_vars; simp [callsSince, containerOpsAt, Call.op])

/-- The calls of `getBridge`: its lookup, or lookup and creation, or lookup,
creation and lookup. -/
theorem getBridge_calls (env : Env) (ifcName : String) (p : List Call)
    (r : Option Interface × Bool) (t : List Call) (hg : getBridge env ifcName p = (r, t)) :
    t = p ++ [.netInterfaceByName ifcName]
    ∨ t = p ++ [.netInterfaceByName ifcName, .NetworkLinkAdd ifcName "bridge"]
    ∨ t = p ++ [.netInterfaceByName ifcName, .NetworkLinkAdd ifcName "bridge",
        .netInterfaceByName ifcName] := by
  simp only [getBridge, Env.invoke, Env.resolve] at hg
  repeat' split at hg
  all_goals
    simp only [Prod.mk.injEq] at *
    casesm* _ ∧ _
    subst_vars
    simp

theorem ConfigureHost_steps_of_error (env : Env) (hostInterface containerInterface : String)
    (gatewayIP : IP) (subnetShareable : Bool) (bridgeInterface : String)
    (subnet : Option IPNet) (containerPid mtu : Int) (h : List Call) (e : Err) (t : List Call)
    (hrun : ConfigureHost env hostInterface containerInterface gatewayIP subnetShareable
        bridgeInterface subnet containerPid mtu h = (some e, t))
    (hne : e ≠ ErrFailedToLinkUp) :
    hostSteps (callsSince h t) = hostStepsAt e := by
  simp only [ConfigureHost, Env.invoke, Env.resolve] at hrun
  repeat' split at hrun
  all_goals
    try
      have hab := ‹(ite _ _ _ : Option Err × List Call) = _›
      repeat' split at hab
  all_goals
    simp only [Prod.mk.injEq, Option.some.injEq] at *
    casesm* _ ∧ _
    subst_vars
    first
    | contradiction
    | (simp [callsSince, hostSteps, hostStepsAt, Call.op]
       done)
    | (rcases getBridge_calls _ _ _ _ _ ‹getBridge _ _ _ = _› with hg | hg | hg <;>
       subst hg <;>
       simp [callsSince, hostSteps, hostStepsAt, Call.op])

/-- When `ConfigureHost` returns `ErrFailedToLinkUp`, the call that failed is a
link-up that follows the attach: the bridge's, or the host end's without or with
the two calls on a new bridge before it. -/
theorem ConfigureHost_link_up_steps (env : Env) (hostInterface containerInterface : String)
    (gatewayIP : IP) (subnetShareable : Bool) (bridgeInterface : String)
    (subnet : Option IPNet) (containerPid mtu : Int) (h : List Call) (t : List Call)
    (hrun : ConfigureHost env hostInterface containerInterface gatewayIP subnetShareable
        bridgeInterface subnet containerPid mtu h = (some ErrFailedToLinkUp, t)) :
    hostSteps (callsSince h t)
        = [.NetworkCreateVethPair, .InterfaceByName, .NetworkSetMTU, .NetworkSetNsPid,
            .InterfaceByName, .NetworkSetNsPid, .netInterfaceByName, .AddToBridge,
            .NetworkLinkAddIp, .NetworkLinkUp]
    ∨ hostSteps (callsSince h t)
        = [.NetworkCreateVethPair, .InterfaceByName, .NetworkSetMTU, .NetworkSetNsPid,
            .InterfaceByName, .NetworkSetNsPid, .netInterfaceByName, .AddToBridge,
            .NetworkLinkUp]
    ∨ hostSteps (callsSince h t)
        = [.NetworkCreateVethPair, .InterfaceByName, .NetworkSetMTU, .NetworkSetNsPid,
            .InterfaceByName, .NetworkSetNsPid, .netInterfaceByName, .AddToBridge,
            .NetworkLinkAddIp, .NetworkLinkUp, .NetworkLinkUp] := by
  simp only [ConfigureHost, Env.invoke, Env.resolve] at hrun
  repeat' split at hrun
  all_goals
    try
      have hab := ‹(ite _ _ _ : Option Err × List Call) = _›
      repeat' split at hab
  all_goals
    simp only [Prod.mk.injEq, Option.some.injEq] at *
    casesm* _ ∧ _
    subst_vars
    first
    | contradiction
    | (rcases getBridge_calls _ _ _ _ _ ‹getBridge _ _ _ = _› with hg | hg | hg <;>
       subst hg <;>
       simp [callsSince, hostSteps, Call.op])

theorem failFast_error_mem (env : Env) (plan : List (Call × Err)) (h : List Call) (e : Err)
    (t : List Call) (hf : failFast env h plan = (some e, t)) : e ∈ plan.map Prod.snd := by
  induction plan generalizing h with
  | nil => simp [failFast] at hf
  | cons p rest ih =>
    obtain ⟨c, e0⟩ := p
    cases hc : env.fails h c
    · simp only [failFast, hc, Bool.false_eq_true, ↓reduceIte] at hf
      exact List.mem_cons_of_mem _ (ih (h ++ [c]) hf)
    · simp only [failFast, hc, ↓reduceIte, Prod.mk.injEq, Option.some.injEq] at hf
      simp [hf.1]

theorem allSucceed_before_bridge (env : Env) (hostInterface containerInterface : String)
    (containerPid mtu : Int) (h : List Call) :
    allSucceed env h (planCalls
        (hostPlanBeforeBridge env hostInterface containerInterface containerPid mtu h))
      = preBridgeSucceeds env hostInterface containerInterface containerPid mtu h := by
  simp [allSucceed, planCalls, hostPlanBeforeBridge, preBridgeSucceeds, afterHostEnd,
    Bool.and_assoc]

/-- When `ConfigureHost` returns `ErrFailedToCreateBridge`, the six steps before
the bridge have succeeded and the run ended with `getBridge`, which yielded no
interface or an existing bridge that may not be shared. -/
theorem ConfigureHost_bridge_error (env : Env) (hostInterface containerInterface : String)
    (gatewayIP : IP) (subnetShareable : Bool) (bridgeInterface : String)
    (subnet : Option IPNet) (containerPid mtu : Int) (h : List Call) (t : List Call)
    (hrun : ConfigureHost env hostInterface containerInterface gatewayIP subnetShareable
        bridgeInterface subnet containerPid mtu h = (some ErrFailedToCreateBridge, t)) :
    preBridgeSucceeds env hostInterface containerInterface containerPid mtu h = true
    ∧ ((∃ created, getBridge env bridgeInterface
            (beforeBridge env hostInterface containerInterface containerPid mtu h)
          = ((none, created), t))
      ∨ (∃ bridgeIfc, getBridge env bridgeInterface
            (beforeBridge env hostInterface containerInterface containerPid mtu h)
          = ((some bridgeIfc, false), t) ∧ subnetShareable = false)) := by
  have hs : allSucceed env h (planCalls
      (hostPlanBeforeBridge env hostInterface containerInterface containerPid mtu h))
      = true := by
    rw [← failFast_nil_iff]
    rcases hff : failFast env h
        (hostPlanBeforeBridge env hostInterface containerInterface containerPid mtu h)
      with ⟨_ | e, t'⟩
    · rfl
    · rw [ConfigureHost_of_early_failure env _ _ _ _ _ _ _ _ h e t' hff] at hrun
      simp only [Prod.mk.injEq, Option.some.injEq] at hrun
      have hmem := failFast_error_mem env _ h e t' hff
      rw [hrun.1] at hmem
      simp [hostPlanBeforeBridge] at hmem
  refine ⟨by rw [← allSucceed_before_bridge]; exact hs, ?_⟩
  rw [ConfigureHost_of_early_success env _ _ _ _ _ _ _ _ h hs] at hrun
  rcases hg : getBridge env bridgeInterface
      (beforeBridge env hostInterface containerInterface containerPid mtu h)
    with ⟨⟨_ | b, created⟩, t0⟩
  · simp only [hg, Prod.mk.injEq, true_and] at hrun
    exact Or.inl ⟨created, by rw [hrun]⟩
  · simp only [hg] at hrun
    by_cases hsh : (!created && !subnetShareable) = true
    · simp only [hsh, ↓reduceIte, Prod.mk.injEq, true_and] at hrun
      simp only [Bool.and_eq_true, Bool.not_eq_true'] at hsh
      obtain ⟨rfl, rfl⟩ := hsh
      exact Or.inr ⟨b, by rw [hrun], rfl⟩
    · rw [if_neg hsh] at hrun
      have hmem := failFast_error_mem env _ t0 _ t hrun
      cases created <;> simp [hostPlanAfterBridge] at hmem

/-- C8 as stated fails. In `ConfigureHost` a bridge link-up failure and a host
link-up failure both return `ErrFailedToLinkUp`, which is also what
`ConfigureContainer` returns for a container link-up failure; a bridge
address-assignment failure and a container address-assignment failure both
return `ErrFailedToAddIp`. -/
theorem link_up_failures_share_error :
    (ConfigureHost (envLinkUpFails "br0") "veth-h" "veth-c" [10, 0, 0, 1] false "br0"
        (some net10) 42 1500 []).1 = some ErrFailedToLinkUp
    ∧ (ConfigureHost (envLinkUpFails "br0") "veth-h" "veth-c" [10, 0, 0, 1] false "br0"
        (some net10) 42 1500 []).2.getLast? = some (.NetworkLinkUp ⟨2, 1500, "br0", [], 0⟩)
    ∧ (ConfigureHost (envLinkUpFails "veth-h") "veth-h" "veth-c" [10, 0, 0, 1] false "br0"
        (some net10) 42 1500 []).1 = some ErrFailedToLinkUp
    ∧ (ConfigureHost (envLinkUpFails "veth-h") "veth-h" "veth-c" [10, 0, 0, 1] false "br0"
        (some net10) 42 1500 []).2.getLast? = some (.NetworkLinkUp ⟨1, 1500, "veth-h", [], 0⟩)
    ∧ hostSteps (ConfigureHost (envLinkUpFails "br0") "veth-h" "veth-c" [10, 0, 0, 1] false
          "br0" (some net10) 42 1500 []).2
        ≠ hostSteps (ConfigureHost (envLinkUpFails "veth-h") "veth-h" "veth-c" [10, 0, 0, 1]
          false "br0" (some net10) 42 1500 []).2
    ∧ (ConfigureContainer (envLinkUpFails "eth0") "eth0" [10, 0, 0, 2] [10, 0, 0, 1]
        (some net10) 1500 []).map Prod.fst = .ok (some ErrFailedToLinkUp)
    ∧ (ConfigureHost (envAddIpFails "br0") "veth-h" "veth-c" [10, 0, 0, 1] false "br0"
        (some net10) 42 1500 []).1 = some ErrFailedToAddIp
    ∧ (ConfigureContainer (envAddIpFails "eth0") "eth0" [10, 0, 0, 2] [10, 0, 0, 1]
        (some net10) 1500 []).map Prod.fst = .ok (some ErrFailedToAddIp) := by
  refine ⟨?_, ?_, ?_, ?_, ?_, ?_, ?_, ?_⟩ <;> decide

/-- C8, amended: the error a call returns tells the step that failed, except for
`ErrFailedToLinkUp` in `ConfigureHost`. Two runs of `ConfigureContainer` that
return the same error have performed the same sequence of primitives, and an
error of the validation gate reports its own check. Two runs of `ConfigureHost`
that return the same error other than `ErrFailedToLinkUp` have performed the
same steps, get-or-create of the bridge counting as one step.
`ErrFailedToCreateBridge` is returned at the bridge step only: the six steps
before it have succeeded and the run ends with `getBridge`, which yielded no
interface or an existing bridge that may not be shared. `ErrFailedToLinkUp` is
returned at a link-up only, but for the bridge's and for the host end's alike,
as the two runs on a new `br0` show, and for the container's by
`ConfigureContainer`; `ErrFailedToAddIp` is returned for the bridge's address
and for the container interface's. -/
theorem error_tells_failing_step :
    (∀ (env env' : Env) (containerInterface containerInterface' : String)
        (containerIP containerIP' gatewayIP gatewayIP' : IP) (subnet subnet' : Option IPNet)
        (mtu mtu' : Int) (h h' t t' : List Call) (e : Err),
      ConfigureContainer env containerInterface containerIP gatewayIP subnet mtu h
        = .ok (some e, t) →
      ConfigureContainer env' containerInterface' containerIP' gatewayIP' subnet' mtu' h'
        = .ok (some e, t') →
      (callsSince h t).map Call.op = (callsSince h' t').map Call.op)
    ∧ (∀ (containerInterface : String) (containerIP gatewayIP : IP) (subnet : Option IPNet)
        (mtu : Int) (e : Err),
      validateContainerConfiguration containerInterface containerIP gatewayIP subnet mtu
        = .ok (some e) →
      failedCheck e containerInterface containerIP gatewayIP subnet mtu)
    ∧ (∀ (env env' : Env) (hostInterface hostInterface' containerInterface
        containerInterface' : String) (gatewayIP gatewayIP' : IP)
        (subnetShareable subnetShareable' : Bool) (bridgeInterface bridgeInterface' : String)
        (subnet subnet' : Option IPNet) (containerPid containerPid' mtu mtu' : Int)
        (h h' t t' : List Call) (e : Err),
      e ≠ ErrFailedToLinkUp →
      ConfigureHost env hostInterface containerInterface gatewayIP subnetShareable
        bridgeInterface subnet containerPid mtu h = (some e, t) →
      ConfigureHost env' hostInterface' containerInterface' gatewayIP' subnetShareable'
        bridgeInterface' subnet' containerPid' mtu' h' = (some e, t') →
      hostSteps (callsSince h t) = hostSteps (callsSince h' t'))
    ∧ (∀ (env : Env) (hostInterface containerInterface : String) (gatewayIP : IP)
        (subnetShareable : Bool) (bridgeInterface : String) (subnet : Option IPNet)
        (containerPid mtu : Int) (h t : List Call),
      ConfigureHost env hostInterface containerInterface gatewayIP subnetShareable
        bridgeInterface subnet containerPid mtu h = (some ErrFailedToCreateBridge, t) →
      preBridgeSucceeds env hostInterface containerInterface containerPid mtu h = true
      ∧ ((∃ created, getBridge env bridgeInterface
              (beforeBridge env hostInterface containerInterface containerPid mtu h)
            = ((none, created), t))
        ∨ (∃ bridgeIfc, getBridge env bridgeInterface
              (beforeBridge env hostInterface containerInterface containerPid mtu h)
            = ((some bridgeIfc, false), t) ∧ subnetShareable = false))
      ∧ hostSteps (callsSince h t)
        = [.NetworkCreateVethPair, .InterfaceByName, .NetworkSetMTU, .NetworkSetNsPid,
            .InterfaceByName, .NetworkSetNsPid, .netInterfaceByName])
    ∧ (∀ (env : Env) (hostInterface containerInterface : String) (gatewayIP : IP)
        (subnetShareable : Bool) (bridgeInterface : String) (subnet : Option IPNet)
        (containerPid mtu : Int) (h t : List Call),
      ConfigureHost env hostInterface containerInterface gatewayIP subnetShareable
        bridgeInterface subnet containerPid mtu h = (some ErrFailedToLinkUp, t) →
      hostSteps (callsSince h t)
          = [.NetworkCreateVethPair, .InterfaceByName, .NetworkSetMTU, .NetworkSetNsPid,
              .InterfaceByName, .NetworkSetNsPid, .netInterfaceByName, .AddToBridge,
              .NetworkLinkAddIp, .NetworkLinkUp]
      ∨ hostSteps (callsSince h t)
          = [.NetworkCreateVethPair, .InterfaceByName, .NetworkSetMTU, .NetworkSetNsPid,
              .InterfaceByName, .NetworkSetNsPid, .netInterfaceByName, .AddToBridge,
              .NetworkLinkUp]
      ∨ hostSteps (callsSince h t)
          = [.NetworkCreateVethPair, .InterfaceByName, .NetworkSetMTU, .NetworkSetNsPid,
              .InterfaceByName, .NetworkSetNsPid, .netInterfaceByName, .AddToBridge,
              .NetworkLinkAddIp, .NetworkLinkUp, .NetworkLinkUp])
    ∧ ((ConfigureHost (envLinkUpFails "br0") "veth-h" "veth-c" [10, 0, 0, 1] false "br0"
          (some net10) 42 1500 [])
        = (some ErrFailedToLinkUp,
            [.NetworkCreateVethPair "veth-h" "veth-c" 1,
              .InterfaceByName "veth-h",
              .NetworkSetMTU ⟨1, 1500, "veth-h", [], 0⟩ 1500,
              .NetworkSetNsPid ⟨1, 1500, "veth-h", [], 0⟩ 1,
              .InterfaceByName "veth-c",
              .NetworkSetNsPid ⟨1, 1500, "veth-c", [], 0⟩ 42,
              .netInterfaceByName "br0",
              .NetworkLinkAdd "br0" "bridge",
              .netInterfaceByName "br0",
              .AddToBridge ⟨1, 1500, "veth-h", [], 0⟩ ⟨2, 1500, "br0", [], 0⟩,
              .NetworkLinkAddIp ⟨2, 1500, "br0", [], 0⟩ [10, 0, 0, 1] (some net10),
              .NetworkLinkUp ⟨2, 1500, "br0", [], 0⟩])
      ∧ (ConfigureHost (envLinkUpFails "veth-h") "veth-h" "veth-c" [10, 0, 0, 1] false "br0"
          (some net10) 42 1500 [])
        = (some ErrFailedToLinkUp,
            [.NetworkCreateVethPair "veth-h" "veth-c" 1,
              .InterfaceByName "veth-h",
              .NetworkSetMTU ⟨1, 1500, "veth-h", [], 0⟩ 1500,
              .NetworkSetNsPid ⟨1, 1500, "veth-h", [], 0⟩ 1,
              .InterfaceByName "veth-c",
              .NetworkSetNsPid ⟨1, 1500, "veth-c", [], 0⟩ 42,
              .netInterfaceByName "br0",
              .NetworkLinkAdd "br0" "bridge",
              .netInterfaceByName "br0",
              .AddToBridge ⟨1, 1500, "veth-h", [], 0⟩ ⟨2, 1500, "br0", [], 0⟩,
              .NetworkLinkAddIp ⟨2, 1500, "br0", [], 0⟩ [10, 0, 0, 1] (some net10),
              .NetworkLinkUp ⟨2, 1500, "br0", [], 0⟩,
              .NetworkLinkUp ⟨1, 1500, "veth-h", [], 0⟩])
      ∧ (ConfigureContainer (envLinkUpFails "eth0") "eth0" [10, 0, 0, 2] [10, 0, 0, 1]
          (some net10) 1500 []).map Prod.fst = .ok (some ErrFailedToLinkUp)
      ∧ (ConfigureHost (envAddIpFails "br0") "veth-h" "veth-c" [10, 0, 0, 1] false "br0"
          (some net10) 42 1500 []).1 = some ErrFailedToAddIp
      ∧ (ConfigureContainer (envAddIpFails "eth0") "eth0" [10, 0, 0, 2] [10, 0, 0, 1]
          (some net10) 1500 []).map Prod.fst = .ok (some ErrFailedToAddIp)) := by
  refine ⟨?_, ?_, ?_, ?_, ?_, ⟨by decide, by decide, by decide, by decide, by decide⟩⟩
  · intro env env' ci ci' cip cip' gip gip' sn sn' mtu mtu' h h' t t' e h1 h2
    rw [ConfigureContainer_ops_of_error env ci cip gip sn mtu h e t h1,
      ConfigureContainer_ops_of_error env' ci' cip' gip' sn' mtu' h' e t' h2]
  · intro ci cip gip sn mtu e hv
    unfold validateContainerConfiguration at hv
    repeat' split at hv
    all_goals
      first
      | contradiction
      | (simp only [Except.ok.injEq, Option.some.injEq] at hv
         first
         | contradiction
         | (subst hv; simp_all [failedCheck]))
  · intro env env' hi hi' ci ci' gip gip' sh sh' br br' sn sn' pid pid' mtu mtu' h h' t t' e
      hne h1 h2
    rw [ConfigureHost_steps_of_error env hi ci gip sh br sn pid mtu h e t h1 hne,
      ConfigureHost_steps_of_error env' hi' ci' gip' sh' br' sn' pid' mtu' h' e t' h2 hne]
  · intro env hi ci gip sh br sn pid mtu h t h1
    obtain ⟨hpre, hbr⟩ := ConfigureHost_bridge_error env hi ci gip sh br sn pid mtu h t h1
    refine ⟨hpre, hbr, ?_⟩
    rw [ConfigureHost_steps_of_error env hi ci gip sh br sn pid mtu h _ t h1 (by decide)]
    rfl
  · intro env hi ci gip sh br sn pid mtu h t h1
    exact ConfigureHost_link_up_steps env hi ci gip sh br sn pid mtu h t h1

/-- C8 amended, for `ErrFailedToAddSlave`: with a bridge created by the call and
with a bridge that was there already, the attach step is the same step. -/
theorem error_tells_failing_step_witness :
    hostSteps (callsSince [] (ConfigureHost envAttachFails "veth-h" "veth-c" [10, 0, 0, 1] false
        "br0" (some net10) 42 1500 []).2)
      = hostSteps (callsSince [.NetworkLinkAdd "br0" "bridge"]
          (ConfigureHost envAttachFails "veth-h" "veth-c" [10, 0, 0, 1] true "br0" (some net10)
            42 1500 [.NetworkLinkAdd "br0" "bridge"]).2) :=
  error_tells_failing_step.2.2.1 envAttachFails envAttachFails "veth-h" "veth-h" "veth-c" "veth-c"
    [10, 0, 0, 1] [10, 0, 0, 1] false true "br0" "br0" (some net10) (some net10) 42 42 1500 1500
    [] [.NetworkLinkAdd "br0" "bridge"] _ _ ErrFailedToAddSlave (by decide) (by decide) (by decide)

end GardenNetwork
